import Mathlib

/-!
# Copy/paste buffer and compositor node registration

A shallow embedding of

* `source/blender/blenkernel/intern/blender_copybuffer.c`
  (`BKE_copybuffer_copy_begin`, `BKE_copybuffer_copy_tag_ID`, `BKE_copybuffer_copy_end`,
  `copybuffer_append`, `BKE_copybuffer_read`, `BKE_copybuffer_paste`), and
* the six compositor node files `node_composite_{crop,doubleEdgeMask,glare,keyingscreen,
  mapRange,planetrackdeform}.cc` (socket declarations, storage initialisers, registration).

The copy buffer is glue over collaborators that live in other files (partial writer,
link/append context, dependency graph).  Collaborators whose behaviour is unknown are fields of
`Env` and every theorem quantifies over them.  Each call to a collaborator is recorded, together
with the document state it was issued on, in a call trace, so that claims about the order of the
calls can be stated.
-/

namespace Blender

/-! ## Data model -/

/-- Modelled from the spec: the transient tag bit `LIB_TAG_PRE_EXISTING` of `ID.tag`; the
enumerator is declared in `DNA_ID.h`, which is not part of the sources (`1 << 11` there). -/
def LIB_TAG_PRE_EXISTING : Nat := 1 <<< 11

/-- Modelled from the spec: the selection bit `BASE_SELECTED` of `Base.flag`, declared in
`DNA_layer_types.h`, which is not part of the sources (`1 << 0` there). -/
def BASE_SELECTED : Nat := 1 <<< 0

/-- Modelled from the spec: the sentinel `BLENDFILE_LINK_APPEND_INVALID` that the item-collection
step returns instead of a count; the macro is declared in `BKE_blendfile_link_append.h`, which is
not part of the sources (`-1` there, a value that is not a count). -/
def BLENDFILE_LINK_APPEND_INVALID : Int := -1

/-- The C expression `x & ~f` on a non-negative bit field: the bits of `f` are removed from
`x`. -/
def clear_flag (x f : Nat) : Nat := x ^^^ (x &&& f)

/-- An ID block: a named, typed data object with its `tag` bit field and the library it is
linked from (`none` for a local ID). -/
structure ID where
  name : String
  idcode : Nat
  tag : Nat
  lib : Option String
deriving DecidableEq

/-- The test `(id->tag & tag) != 0`. -/
def ID.has_tag (id : ID) (tag : Nat) : Bool := id.tag &&& tag != 0

/-- An object base of a view layer with its `flag` bit field. -/
structure Base where
  object : String
  flag : Nat
deriving DecidableEq

/-- The test `(base->flag & BASE_SELECTED) != 0`. -/
def Base.selected (base : Base) : Bool := base.flag &&& BASE_SELECTED != 0

/-- The document: its ID blocks and whether the relations of its dependency graphs are tagged
for an update. -/
structure Main where
  ids : List ID
  relations_tagged : Bool
deriving DecidableEq

/-- A view layer: its object bases. -/
structure ViewLayer where
  object_bases : List Base
deriving DecidableEq

/-- A scene, by name. -/
structure Scene where
  name : String
deriving DecidableEq

/-- A 3D viewport, by the index of its area. -/
structure View3D where
  area : Nat
deriving DecidableEq

/-- The `ReportList` diagnostics sink. -/
abbrev ReportList := List String

/-- Everything the paste functions can reach: the destination `Main`, the active view layer of
the context, and the report list. -/
structure World where
  bmain : Main
  view_layer : ViewLayer
  reports : ReportList
deriving DecidableEq

/-- The ambient context `bContext`: `CTX_data_scene` and `CTX_wm_view3d` (may be `NULL`);
`CTX_data_main` and `CTX_data_view_layer` are the `bmain` and `view_layer` of the `World`. -/
structure bContext where
  scene : Scene
  v3d : Option View3D
deriving DecidableEq

/-- The struct `LibraryLink_Params`. Its `bmain` pointer is always the destination `Main` of the
`World`; `context_view_layer` tells whether `context.view_layer` points to the view layer of the
`World` (`true`) or is `NULL` (`false`). -/
structure LibraryLink_Params where
  flag : Int
  id_tag_extra : Int
  context_scene : Option Scene
  context_view_layer : Bool
  context_v3d : Option View3D
deriving DecidableEq

/-- One item of a link/append context: the name and type code of an ID to bring in. -/
structure BlendfileLinkAppendContextItem where
  name : String
  idcode : Nat
deriving DecidableEq

/-- The struct `BlendfileLinkAppendContext`: parameters, library paths, requested items. -/
structure BlendfileLinkAppendContext where
  params : LibraryLink_Params
  libraries : List String
  items : List BlendfileLinkAppendContextItem
deriving DecidableEq

/-- The enum `eBLO_WritePathRemap`. -/
inductive eBLO_WritePathRemap where
  | BLO_WRITE_PATH_REMAP_NONE
  | BLO_WRITE_PATH_REMAP_RELATIVE
  | BLO_WRITE_PATH_REMAP_RELATIVE_ALL
  | BLO_WRITE_PATH_REMAP_ABSOLUTE
deriving DecidableEq

/-! ## Collaborators -/

/-- The collaborators whose code is elsewhere and whose effect is left arbitrary. Each has the
footprint of its C signature: the link and append steps get the context and may change the whole
`World`; the two `Main *` functions change the `Main`; the item-collection step gets the context
and the report list and returns the count (or `BLENDFILE_LINK_APPEND_INVALID`), the items it
adds to the context and the new report list. -/
structure Env where
  BKE_blendfile_write_partial_begin : Main → Main
  BKE_blendfile_write_partial_tag_ID : Main → String → Bool → Main
  BKE_blendfile_write_partial :
    Main → String → Int → eBLO_WritePathRemap → ReportList → Bool × Main × ReportList
  BKE_blendfile_write_partial_end : Main → Main
  BKE_blendfile_link_append_context_item_idtypes_from_library_add :
    BlendfileLinkAppendContext → ReportList → Nat → Nat →
      Int × List BlendfileLinkAppendContextItem × ReportList
  BKE_blendfile_link : BlendfileLinkAppendContext → World → World
  BKE_main_lib_objects_recalc_all : Main → Main
  IMB_colormanagement_check_file_config : Main → Main
  BKE_blendfile_append : BlendfileLinkAppendContext → World → World

/-- Modelled from the spec: `BKE_main_id_tag_all(bmain, tag, value)` of `lib_id.c` (not part of
the sources) sets (`value = true`) or clears (`value = false`) the bits `tag` in the `tag` field
of every ID of `bmain`. -/
def BKE_main_id_tag_all (bmain : Main) (tag : Nat) (value : Bool) : Main :=
  { bmain with
    ids := bmain.ids.map fun id =>
      if value then { id with tag := id.tag ||| tag } else { id with tag := clear_flag id.tag tag } }

/-- Modelled from the spec: `DEG_relations_tag_update(bmain)` of the dependency graph (not part
of the sources) flags the relations of the dependency graphs of `bmain` as stale. -/
def DEG_relations_tag_update (bmain : Main) : Main :=
  { bmain with relations_tagged := true }

/-- Modelled from the spec: `BKE_view_layer_base_deselect_all(view_layer)` of `layer.c` (not part
of the sources) clears `BASE_SELECTED` in the flag of every base of the view layer. -/
def BKE_view_layer_base_deselect_all (view_layer : ViewLayer) : ViewLayer :=
  { view_layer with
    object_bases := view_layer.object_bases.map fun base =>
      { base with flag := clear_flag base.flag BASE_SELECTED } }

/-- Modelled from the spec: `BLO_library_link_params_init` of `readfile.c` (not part of the
sources) fills the parameters with the flag and extra tag and no scene, view layer or 3D view. -/
def BLO_library_link_params_init (flag id_tag_extra : Int) : LibraryLink_Params :=
  { flag := flag, id_tag_extra := id_tag_extra,
    context_scene := none, context_view_layer := false, context_v3d := none }

/-- Modelled from the spec: `BLO_library_link_params_init_with_context` of `readfile.c` (not part
of the sources) fills the parameters like `BLO_library_link_params_init` and then stores the
scene, the view layer and the 3D view. -/
def BLO_library_link_params_init_with_context (flag id_tag_extra : Int) (scene : Scene)
    (v3d : Option View3D) : LibraryLink_Params :=
  { BLO_library_link_params_init flag id_tag_extra with
    context_scene := some scene, context_view_layer := true, context_v3d := v3d }

/-- Modelled from the spec: `BKE_blendfile_link_append_context_new` (not part of the sources)
makes a context holding the parameters, without libraries or items. -/
def BKE_blendfile_link_append_context_new (params : LibraryLink_Params) :
    BlendfileLinkAppendContext :=
  { params := params, libraries := [], items := [] }

/-- Modelled from the spec: `BKE_blendfile_link_append_context_library_add` (not part of the
sources) adds the path of a library to the context. -/
def BKE_blendfile_link_append_context_library_add (lapp_context : BlendfileLinkAppendContext)
    (libname : String) : BlendfileLinkAppendContext :=
  { lapp_context with libraries := lapp_context.libraries ++ [libname] }

/-! ## Call trace -/

/-- The calls the copy buffer issues to its collaborators, with the arguments that matter. The
getters on the context and the filling of the `LibraryLink_Params` struct, which act on locals
only, are not recorded. -/
inductive Call where
  | write_partial_begin
  | write_partial_tag_ID (id : String) (set : Bool)
  | write_partial (filename : String) (write_flags : Int) (remap_mode : eBLO_WritePathRemap)
  | write_partial_end
  | link_append_context_new (params : LibraryLink_Params)
  | link_append_context_library_add (libname : String)
  | link_append_context_item_idtypes_from_library_add (id_types_mask : Nat) (library_index : Nat)
  | link_append_context_free
  | view_layer_base_deselect_all
  | main_id_tag_all (tag : Nat) (value : Bool)
  | blendfile_link (lapp_context : BlendfileLinkAppendContext)
  | main_lib_objects_recalc_all
  | colormanagement_check_file_config
  | blendfile_append (lapp_context : BlendfileLinkAppendContext)
  | relations_tag_update
deriving DecidableEq

/-- One entry of the trace: the call and the `World` it was issued on. -/
structure Step where
  call : Call
  before : World
deriving DecidableEq

/-- The state threaded through the functions: the `World` and the trace of calls so far. -/
structure State where
  world : World
  trace : List Step
deriving DecidableEq

/-- Issue a call: record it with the current `World`, then apply its effect. -/
def State.call (s : State) (c : Call) (effect : World → World) : State :=
  { world := effect s.world, trace := s.trace ++ [{ call := c, before := s.world }] }

/-- Lift an effect on the `Main` to the `World`. -/
def on_bmain (f : Main → Main) (w : World) : World := { w with bmain := f w.bmain }

/-- Lift an effect on the view layer to the `World`. -/
def on_view_layer (f : ViewLayer → ViewLayer) (w : World) : World :=
  { w with view_layer := f w.view_layer }

/-! ## `blender_copybuffer.c` -/

/-- `BKE_copybuffer_copy_begin`: initialize a copy operation. -/
def BKE_copybuffer_copy_begin (env : Env) (s : State) : State :=
  s.call .write_partial_begin (on_bmain env.BKE_blendfile_write_partial_begin)

/-- `BKE_copybuffer_copy_tag_ID`: mark an ID to be copied. -/
def BKE_copybuffer_copy_tag_ID (env : Env) (id : String) (s : State) : State :=
  s.call (.write_partial_tag_ID id true)
    (on_bmain fun bmain => env.BKE_blendfile_write_partial_tag_ID bmain id true)

/-- `BKE_copybuffer_copy_end`: finalize a copy operation into the buffer file. -/
def BKE_copybuffer_copy_end (env : Env) (filename : String) (s : State) : Bool × State :=
  let write_flags : Int := 0
  let remap_mode := eBLO_WritePathRemap.BLO_WRITE_PATH_REMAP_RELATIVE
  let written :=
    env.BKE_blendfile_write_partial s.world.bmain filename write_flags remap_mode s.world.reports
  let retval := written.1
  let s := s.call (Call.write_partial filename write_flags remap_mode)
    (fun w => { w with bmain := written.2.1, reports := written.2.2 })
  let s := s.call .write_partial_end (on_bmain env.BKE_blendfile_write_partial_end)
  (retval, s)

/-- `copybuffer_append`: common helper for paste functions. -/
def copybuffer_append (env : Env) (lapp_context : BlendfileLinkAppendContext) (s : State) :
    State :=
  /- Tag existing IDs in given `bmain_dst` as already existing. -/
  let s := s.call (.main_id_tag_all LIB_TAG_PRE_EXISTING true)
    (on_bmain fun bmain => BKE_main_id_tag_all bmain LIB_TAG_PRE_EXISTING true)
  let s := s.call (.blendfile_link lapp_context) (env.BKE_blendfile_link lapp_context)
  /- Mark all library linked objects to be updated. -/
  let s := s.call .main_lib_objects_recalc_all (on_bmain env.BKE_main_lib_objects_recalc_all)
  let s := s.call .colormanagement_check_file_config
    (on_bmain env.IMB_colormanagement_check_file_config)
  /- Append, rather than linking. -/
  let s := s.call (.blendfile_append lapp_context) (env.BKE_blendfile_append lapp_context)
  /- This must be unset, otherwise these objects won't link into other scenes. -/
  let s := s.call (.main_id_tag_all LIB_TAG_PRE_EXISTING false)
    (on_bmain fun bmain => BKE_main_id_tag_all bmain LIB_TAG_PRE_EXISTING false)
  /- Recreate dependency graph to include new objects. -/
  s.call .relations_tag_update (on_bmain DEG_relations_tag_update)

/-- The shared opening of both paste functions: make the context from the parameters, add the
library, collect the items of the requested types. Returns `num_pasted`, the context and the
state. -/
def link_append_context_setup (env : Env) (liblink_params : LibraryLink_Params)
    (libname : String) (id_types_mask : Nat) (s : State) :
    Int × BlendfileLinkAppendContext × State :=
  let lapp_context := BKE_blendfile_link_append_context_new liblink_params
  let s := s.call (.link_append_context_new liblink_params) id
  let lapp_context := BKE_blendfile_link_append_context_library_add lapp_context libname
  let s := s.call (.link_append_context_library_add libname) id
  let collected := env.BKE_blendfile_link_append_context_item_idtypes_from_library_add
    lapp_context s.world.reports id_types_mask 0
  let num_pasted := collected.1
  let lapp_context := { lapp_context with items := lapp_context.items ++ collected.2.1 }
  let s := s.call (.link_append_context_item_idtypes_from_library_add id_types_mask 0)
    (fun w => { w with reports := collected.2.2 })
  (num_pasted, lapp_context, s)

/-- `BKE_copybuffer_read`: paste datablocks from the buffer file, without instantiation. -/
def BKE_copybuffer_read (env : Env) (libname : String) (id_types_mask : Nat) (s : State) :
    Bool × State :=
  let flag : Int := 0
  let id_tag_extra : Int := 0
  let liblink_params := BLO_library_link_params_init flag id_tag_extra
  let (num_pasted, lapp_context, s) :=
    link_append_context_setup env liblink_params libname id_types_mask s
  if num_pasted = BLENDFILE_LINK_APPEND_INVALID then
    let s := s.call .link_append_context_free id
    (false, s)
  else
    let s := copybuffer_append env lapp_context s
    let s := s.call .link_append_context_free id
    (true, s)

/-- `BKE_copybuffer_paste`: paste datablocks from the buffer file, with instantiation. The
`BLI_assert` on `flag` is a debug-build check and is not a step of the function. -/
def BKE_copybuffer_paste (env : Env) (C : bContext) (libname : String) (flag : Int)
    (id_types_mask : Nat) (s : State) : Int × State :=
  let scene := C.scene
  let v3d := C.v3d
  let id_tag_extra : Int := 0
  let liblink_params := BLO_library_link_params_init_with_context flag id_tag_extra scene v3d
  let (num_pasted, lapp_context, s) :=
    link_append_context_setup env liblink_params libname id_types_mask s
  if num_pasted = BLENDFILE_LINK_APPEND_INVALID then
    let s := s.call .link_append_context_free id
    (0, s)
  else
    let s := s.call .view_layer_base_deselect_all (on_view_layer BKE_view_layer_base_deselect_all)
    let s := copybuffer_append env lapp_context s
    let s := s.call .link_append_context_free id
    (num_pasted, s)

/-- What the item-collection step yields in `BKE_copybuffer_read`: its `num_pasted`. -/
def read_num_pasted (env : Env) (libname : String) (id_types_mask : Nat) (s : State) : Int :=
  (link_append_context_setup env (BLO_library_link_params_init 0 0) libname id_types_mask s).1

/-- What the item-collection step yields in `BKE_copybuffer_paste`: its `num_pasted`. -/
def paste_num_pasted (env : Env) (C : bContext) (libname : String) (flag : Int)
    (id_types_mask : Nat) (s : State) : Int :=
  (link_append_context_setup env
    (BLO_library_link_params_init_with_context flag 0 C.scene C.v3d) libname id_types_mask s).1

/-- The context `BKE_copybuffer_read` hands to `copybuffer_append`. -/
def read_lapp_context (env : Env) (libname : String) (id_types_mask : Nat) (s : State) :
    BlendfileLinkAppendContext :=
  (link_append_context_setup env (BLO_library_link_params_init 0 0) libname id_types_mask s).2.1

/-- The context `BKE_copybuffer_paste` hands to `copybuffer_append`. -/
def paste_lapp_context (env : Env) (C : bContext) (libname : String) (flag : Int)
    (id_types_mask : Nat) (s : State) : BlendfileLinkAppendContext :=
  (link_append_context_setup env
    (BLO_library_link_params_init_with_context flag 0 C.scene C.v3d) libname id_types_mask s).2.1

/-- The link parameters a call carries, when it carries some. -/
def Call.link_params : Call → Option LibraryLink_Params
  | .link_append_context_new params => some params
  | .blendfile_link lapp_context => some lapp_context.params
  | .blendfile_append lapp_context => some lapp_context.params
  | _ => none

/-- The link and append steps leave the view layer alone when the parameters of the context
hold no view layer. -/
def Env.keeps_view_layer_without_context (env : Env) : Prop :=
  ∀ (lapp_context : BlendfileLinkAppendContext) (w : World),
    lapp_context.params.context_view_layer = false →
      (env.BKE_blendfile_link lapp_context w).view_layer = w.view_layer ∧
      (env.BKE_blendfile_append lapp_context w).view_layer = w.view_layer

/-- The calls of a run, in order: those of the trace after the first `n` entries. -/
def calls_after (n : Nat) (s : State) : List Call := (s.trace.drop n).map Step.call

/-- The entries a run adds to a trace that had `n` entries. -/
def steps_after (n : Nat) (s : State) : List Step := s.trace.drop n

/-! ## Sample collaborators and document, for the concrete instances -/

/-- The IDs stored in the sample buffer file: an object and its mesh. -/
def sample_buffer : List BlendfileLinkAppendContextItem :=
  [{ name := "OBCube", idcode := 1 }, { name := "MECube", idcode := 2 }]

/-- Sample collaborators. The only readable library is `copybuffer.blend`, holding
`sample_buffer`; an ID type `c` is requested by bit `c` of the mask (mask `0` asks for all).
Linking adds the items as library IDs and, with a view layer, a selected base for each object
(type code `1`); appending makes the library IDs local. Writing fails on an empty file name. -/
def sample_env : Env where
  BKE_blendfile_write_partial_begin := fun bmain => bmain
  BKE_blendfile_write_partial_tag_ID := fun bmain _ _ => bmain
  BKE_blendfile_write_partial := fun bmain filename _ _ reports =>
    if filename.length = 0 then (false, bmain, reports ++ ["Cannot write"])
    else (true, bmain, reports)
  BKE_blendfile_write_partial_end := fun bmain => bmain
  BKE_blendfile_link_append_context_item_idtypes_from_library_add :=
    fun lapp_context reports id_types_mask _ =>
      if lapp_context.libraries = ["copybuffer.blend"] then
        let found := sample_buffer.filter fun item =>
          id_types_mask == 0 || (id_types_mask &&& (1 <<< item.idcode)) != 0
        ((found.length : Int), found, reports)
      else (BLENDFILE_LINK_APPEND_INVALID, [], reports ++ ["Cannot open library"])
  BKE_blendfile_link := fun lapp_context w =>
    { w with
      bmain := { w.bmain with
        ids := w.bmain.ids ++ lapp_context.items.map fun item =>
          { name := item.name, idcode := item.idcode, tag := 1, lib := some "copybuffer.blend" } }
      view_layer :=
        if lapp_context.params.context_view_layer then
          { object_bases := w.view_layer.object_bases ++
              (lapp_context.items.filter fun item => item.idcode == 1).map fun item =>
                { object := item.name, flag := BASE_SELECTED } }
        else w.view_layer }
  BKE_main_lib_objects_recalc_all := fun bmain => bmain
  IMB_colormanagement_check_file_config := fun bmain => bmain
  BKE_blendfile_append := fun _ w =>
    { w with bmain := { w.bmain with ids := w.bmain.ids.map fun id => { id with lib := none } } }

/-- A sample document: a camera that already carries `LIB_TAG_PRE_EXISTING`, a light, and a view
layer in which the camera is selected; nothing is tagged in the dependency graph. -/
def sample_world : World where
  bmain :=
    { ids := [{ name := "OBCamera", idcode := 1, tag := LIB_TAG_PRE_EXISTING, lib := none },
              { name := "LALight", idcode := 3, tag := 0, lib := none }],
      relations_tagged := false }
  view_layer :=
    { object_bases := [{ object := "OBCamera", flag := BASE_SELECTED },
                       { object := "OBLight", flag := 0 }] }
  reports := []

/-- The sample document with an empty trace. -/
def sample_state : State := { world := sample_world, trace := [] }

/-- A sample context: scene `Scene`, no 3D view. -/
def sample_context : bContext := { scene := { name := "Scene" }, v3d := none }

/-! ## Compositor nodes: socket declarations -/

/-- The socket data types declared in these files: `decl::Float` and `decl::Color`. -/
inductive SocketType where
  | Float
  | Color
deriving DecidableEq

/-- The argument of `.default_value(...)`: a float, or the four floats of a colour. A float
literal stands for its exact binary32 value, as a rational. -/
inductive SocketValue where
  | float (value : ℚ)
  | color (r g b a : ℚ)
deriving DecidableEq

/-- The exact value of the float literal `0.8f`: the binary32 number nearest to 0.8, which is
`13421773 * 2^-24`. The other float literals of the declarations (`0.0f`, `1.0f`, `10000.0f`,
`-10000.0f`) are integers and exact. -/
def float_0_8 : ℚ := 13421773 / 16777216

/-- A socket declaration as these files build it: the name and type, and the default value,
minimum and maximum when the declaration sets them (`none` when it leaves them to the
builder). -/
structure SocketDeclaration where
  name : String
  type : SocketType
  default_value : Option SocketValue
  min : Option ℚ
  max : Option ℚ
deriving DecidableEq

/-- A socket of the given type as `add_input<T>(name)` / `add_output<T>(name)` starts it. -/
def SocketDeclaration.new (type : SocketType) (name : String) : SocketDeclaration :=
  { name := name, type := type, default_value := none, min := none, max := none }

/-- The builder call `.default_value(value)`. -/
def SocketDeclaration.set_default_value (socket : SocketDeclaration) (value : SocketValue) :
    SocketDeclaration :=
  { socket with default_value := some value }

/-- The builder call `.min(value)`. -/
def SocketDeclaration.set_min (socket : SocketDeclaration) (value : ℚ) : SocketDeclaration :=
  { socket with min := some value }

/-- The builder call `.max(value)`. -/
def SocketDeclaration.set_max (socket : SocketDeclaration) (value : ℚ) : SocketDeclaration :=
  { socket with max := some value }

/-- The state of a `NodeDeclarationBuilder`: the declared inputs and outputs, in order. -/
structure NodeDeclarationBuilder where
  inputs : List SocketDeclaration
  outputs : List SocketDeclaration
deriving DecidableEq

/-- The builder call `b.add_input<T>(...)`, with the finished socket. -/
def NodeDeclarationBuilder.add_input (b : NodeDeclarationBuilder) (socket : SocketDeclaration) :
    NodeDeclarationBuilder :=
  { b with inputs := b.inputs ++ [socket] }

/-- The builder call `b.add_output<T>(...)`, with the finished socket. -/
def NodeDeclarationBuilder.add_output (b : NodeDeclarationBuilder) (socket : SocketDeclaration) :
    NodeDeclarationBuilder :=
  { b with outputs := b.outputs ++ [socket] }

/-- `cmp_node_crop_declare` of `node_composite_crop.cc`. -/
def cmp_node_crop_declare (b : NodeDeclarationBuilder) : NodeDeclarationBuilder :=
  let b := b.add_input
    ((SocketDeclaration.new .Color "Image").set_default_value (.color 1 1 1 1))
  b.add_output (SocketDeclaration.new .Color "Image")

/-- `cmp_node_double_edge_mask_declare` of `node_composite_doubleEdgeMask.cc`. -/
def cmp_node_double_edge_mask_declare (b : NodeDeclarationBuilder) : NodeDeclarationBuilder :=
  let b := b.add_input
    ((((SocketDeclaration.new .Float "Inner Mask").set_default_value (.float float_0_8)).set_min
      0).set_max 1)
  let b := b.add_input
    ((((SocketDeclaration.new .Float "Outer Mask").set_default_value (.float float_0_8)).set_min
      0).set_max 1)
  b.add_output (SocketDeclaration.new .Float "Mask")

/-- `cmp_node_glare_declare` of `node_composite_glare.cc`. -/
def cmp_node_glare_declare (b : NodeDeclarationBuilder) : NodeDeclarationBuilder :=
  let b := b.add_input
    ((SocketDeclaration.new .Color "Image").set_default_value (.color 1 1 1 1))
  b.add_output (SocketDeclaration.new .Color "Image")

/-- `cmp_node_keyingscreen_declare` of `node_composite_keyingscreen.cc`. -/
def cmp_node_keyingscreen_declare (b : NodeDeclarationBuilder) : NodeDeclarationBuilder :=
  b.add_output (SocketDeclaration.new .Color "Screen")

/-- `cmp_node_map_range_declare` of `node_composite_mapRange.cc`. -/
def cmp_node_map_range_declare (b : NodeDeclarationBuilder) : NodeDeclarationBuilder :=
  let b := b.add_input
    ((((SocketDeclaration.new .Float "Value").set_default_value (.float 1)).set_min 0).set_max 1)
  let b := b.add_input
    ((((SocketDeclaration.new .Float "From Min").set_default_value (.float 0)).set_min
      (-10000)).set_max 10000)
  let b := b.add_input
    ((((SocketDeclaration.new .Float "From Max").set_default_value (.float 0)).set_min
      (-10000)).set_max 10000)
  let b := b.add_input
    ((((SocketDeclaration.new .Float "To Min").set_default_value (.float 0)).set_min
      (-10000)).set_max 10000)
  let b := b.add_input
    ((((SocketDeclaration.new .Float "To Max").set_default_value (.float 0)).set_min
      (-10000)).set_max 10000)
  b.add_output (SocketDeclaration.new .Float "Value")

/-- `cmp_node_planetrackdeform_declare` of `node_composite_planetrackdeform.cc`. -/
def cmp_node_planetrackdeform_declare (b : NodeDeclarationBuilder) : NodeDeclarationBuilder :=
  let b := b.add_input (SocketDeclaration.new .Color "Image")
  let b := b.add_output (SocketDeclaration.new .Color "Image")
  b.add_output (SocketDeclaration.new .Float "Plane")

/-! ## Compositor nodes: storage and registration -/

/-- The exact value of the literal `0.9` once stored into a float field: the binary32 number
nearest to 0.9, which is `7549747 * 2^-23`. The other values the initialisers store (`0.25`,
`0.5f` and integers) are exact. -/
def float_0_9 : ℚ := 7549747 / 8388608

/-- A block of guarded-allocator memory holding one struct: the struct whose `sizeof` was asked
for, the allocation name, and the fields stored so far with their values, most recent first. A
field that was never stored reads as what the allocation left there; for `MEM_callocN` that is
zero. The struct declarations (`DNA_node_types.h`) are not part of the sources, so fields are
referred to by name; a stored value is the exact value the field receives, as a rational (the
literal `0.9` stored into the float field `fade` is rounded to binary32, see `float_0_9`). -/
structure StorageBlock where
  struct_name : String
  alloc_name : String
  stored : List (String × ℚ)
deriving DecidableEq

/-- Read a field of a zero-initialised block. -/
def StorageBlock.read (block : StorageBlock) (field : String) : ℚ :=
  ((block.stored.find? fun entry => entry.1 == field).map Prod.snd).getD 0

/-- The fields explicitly assigned in a block. -/
def StorageBlock.assigned (block : StorageBlock) : List String := block.stored.map Prod.fst

/-- The heap of storage blocks; a pointer is the index of its block. -/
structure Heap where
  blocks : List StorageBlock
deriving DecidableEq

/-- Modelled from the spec: `MEM_callocN(sizeof(T), name)` of the guarded allocator (not part of
the sources) allocates a new block of the size of `T`, zero-initialised, and returns a pointer
to it. -/
def MEM_callocN (heap : Heap) (struct_name alloc_name : String) : Nat × Heap :=
  (heap.blocks.length,
    { blocks := heap.blocks ++
        [{ struct_name := struct_name, alloc_name := alloc_name, stored := [] }] })

/-- The assignment `ptr->field = value`. -/
def Heap.store (heap : Heap) (ptr : Nat) (field : String) (value : ℚ) : Heap :=
  { blocks := heap.blocks.modify (fun block => { block with stored := (field, value) :: block.stored })
      ptr }

/-- A node: its `storage` pointer (`none` for `NULL`). -/
structure bNode where
  storage : Option Nat
deriving DecidableEq

/-- A node tree, by name; the initialisers do not use it. -/
structure bNodeTree where
  name : String
deriving DecidableEq

/-- `node_composit_init_crop` of `node_composite_crop.cc`. -/
def node_composit_init_crop (_ntree : bNodeTree) (heap : Heap) (node : bNode) : Heap × bNode :=
  let (nxy, heap) := MEM_callocN heap "NodeTwoXYs" "node xy data"
  let node := { node with storage := some nxy }
  let heap := heap.store nxy "x1" 0
  let heap := heap.store nxy "x2" 0
  let heap := heap.store nxy "y1" 0
  let heap := heap.store nxy "y2" 0
  (heap, node)

/-- `node_composit_init_glare` of `node_composite_glare.cc`. -/
def node_composit_init_glare (_ntree : bNodeTree) (heap : Heap) (node : bNode) : Heap × bNode :=
  let (ndg, heap) := MEM_callocN heap "NodeGlare" "node glare data"
  let heap := heap.store ndg "quality" 1
  let heap := heap.store ndg "type" 2
  let heap := heap.store ndg "iter" 3
  let heap := heap.store ndg "colmod" (1 / 4)
  let heap := heap.store ndg "mix" 0
  let heap := heap.store ndg "threshold" 1
  let heap := heap.store ndg "star_45" 1
  let heap := heap.store ndg "streaks" 4
  let heap := heap.store ndg "angle_ofs" 0
  let heap := heap.store ndg "fade" float_0_9
  let heap := heap.store ndg "size" 8
  let node := { node with storage := some ndg }
  (heap, node)

/-- `node_composit_init_keyingscreen` of `node_composite_keyingscreen.cc`. -/
def node_composit_init_keyingscreen (_ntree : bNodeTree) (heap : Heap) (node : bNode) :
    Heap × bNode :=
  let (data, heap) := MEM_callocN heap "NodeKeyingScreenData" "node keyingscreen data"
  let node := { node with storage := some data }
  (heap, node)

/-- The static `init` of `node_composite_planetrackdeform.cc`. -/
def planetrackdeform_init (_ntree : bNodeTree) (heap : Heap) (node : bNode) : Heap × bNode :=
  let (data, heap) := MEM_callocN heap "NodePlaneTrackDeformData" "node plane track deform data"
  let heap := heap.store data "motion_blur_samples" 16
  let heap := heap.store data "motion_blur_shutter" (1 / 2)
  let node := { node with storage := some data }
  (heap, node)

/-- The node type identifiers used here (`BKE_node.h`, not part of the sources), by name. -/
inductive CmpNodeType where
  | CMP_NODE_CROP
  | CMP_NODE_DOUBLEEDGEMASK
  | CMP_NODE_GLARE
  | CMP_NODE_KEYINGSCREEN
  | CMP_NODE_MAP_RANGE
  | CMP_NODE_PLANETRACKDEFORM
deriving DecidableEq

/-- The node classes used here (`BKE_node.h`, not part of the sources), by name. -/
inductive NodeClass where
  | NODE_CLASS_DISTORT
  | NODE_CLASS_MATTE
  | NODE_CLASS_OP_FILTER
  | NODE_CLASS_OP_VECTOR
deriving DecidableEq

/-- The fields of `bNodeType` these files set. A `static bNodeType` starts zeroed: no type, no
callbacks, empty storage name. -/
structure bNodeType where
  type : Option CmpNodeType
  ui_name : String
  nclass : Option NodeClass
  flag : Int
  declare : Option (NodeDeclarationBuilder → NodeDeclarationBuilder)
  initfunc : Option (bNodeTree → Heap → bNode → Heap × bNode)
  storagename : String
  freefunc : Option String
  copyfunc : Option String

/-- A `static bNodeType ntype;`: zero-initialised. -/
def bNodeType.zeroed : bNodeType :=
  { type := none, ui_name := "", nclass := none, flag := 0, declare := none, initfunc := none,
    storagename := "", freefunc := none, copyfunc := none }

/-- Modelled from the spec: `cmp_node_type_base` of `node_composite_util.cc` (not part of the
sources) stores the identifier, the display name, the class and the flag. -/
def cmp_node_type_base (ntype : bNodeType) (type : CmpNodeType) (name : String)
    (nclass : NodeClass) (flag : Int) : bNodeType :=
  { ntype with type := some type, ui_name := name, nclass := some nclass, flag := flag }

/-- Modelled from the spec: `node_type_init` of `node.cc` (not part of the sources) stores the
init callback. -/
def node_type_init (ntype : bNodeType)
    (initfunc : bNodeTree → Heap → bNode → Heap × bNode) : bNodeType :=
  { ntype with initfunc := some initfunc }

/-- Modelled from the spec: `node_type_storage` of `node.cc` (not part of the sources) stores the
name of the storage struct and the free and copy callbacks. -/
def node_type_storage (ntype : bNodeType) (storagename freefunc copyfunc : String) : bNodeType :=
  { ntype with storagename := storagename, freefunc := some freefunc, copyfunc := some copyfunc }

/-- Modelled from the spec: `nodeRegisterType` of `node.cc` (not part of the sources) adds the
node type to the process-wide, append-only table. -/
def nodeRegisterType (registry : List bNodeType) (ntype : bNodeType) : List bNodeType :=
  registry ++ [ntype]

/-- `register_node_type_cmp_crop` of `node_composite_crop.cc`. -/
def register_node_type_cmp_crop (registry : List bNodeType) : List bNodeType :=
  let ntype := bNodeType.zeroed
  let ntype := cmp_node_type_base ntype .CMP_NODE_CROP "Crop" .NODE_CLASS_DISTORT 0
  let ntype := { ntype with declare := some cmp_node_crop_declare }
  let ntype := node_type_init ntype node_composit_init_crop
  let ntype := node_type_storage ntype "NodeTwoXYs" "node_free_standard_storage"
    "node_copy_standard_storage"
  nodeRegisterType registry ntype

/-- `register_node_type_cmp_doubleedgemask` of `node_composite_doubleEdgeMask.cc`. -/
def register_node_type_cmp_doubleedgemask (registry : List bNodeType) : List bNodeType :=
  let ntype := bNodeType.zeroed
  let ntype := cmp_node_type_base ntype .CMP_NODE_DOUBLEEDGEMASK "Double Edge Mask"
    .NODE_CLASS_MATTE 0
  let ntype := { ntype with declare := some cmp_node_double_edge_mask_declare }
  nodeRegisterType registry ntype

/-- `register_node_type_cmp_glare` of `node_composite_glare.cc`. -/
def register_node_type_cmp_glare (registry : List bNodeType) : List bNodeType :=
  let ntype := bNodeType.zeroed
  let ntype := cmp_node_type_base ntype .CMP_NODE_GLARE "Glare" .NODE_CLASS_OP_FILTER 0
  let ntype := { ntype with declare := some cmp_node_glare_declare }
  let ntype := node_type_init ntype node_composit_init_glare
  let ntype := node_type_storage ntype "NodeGlare" "node_free_standard_storage"
    "node_copy_standard_storage"
  nodeRegisterType registry ntype

/-- `register_node_type_cmp_keyingscreen` of `node_composite_keyingscreen.cc`. -/
def register_node_type_cmp_keyingscreen (registry : List bNodeType) : List bNodeType :=
  let ntype := bNodeType.zeroed
  let ntype := cmp_node_type_base ntype .CMP_NODE_KEYINGSCREEN "Keying Screen"
    .NODE_CLASS_MATTE 0
  let ntype := { ntype with declare := some cmp_node_keyingscreen_declare }
  let ntype := node_type_init ntype node_composit_init_keyingscreen
  let ntype := node_type_storage ntype "NodeKeyingScreenData" "node_free_standard_storage"
    "node_copy_standard_storage"
  nodeRegisterType registry ntype

/-- `register_node_type_cmp_map_range` of `node_composite_mapRange.cc`. -/
def register_node_type_cmp_map_range (registry : List bNodeType) : List bNodeType :=
  let ntype := bNodeType.zeroed
  let ntype := cmp_node_type_base ntype .CMP_NODE_MAP_RANGE "Map Range" .NODE_CLASS_OP_VECTOR 0
  let ntype := { ntype with declare := some cmp_node_map_range_declare }
  nodeRegisterType registry ntype

/-- `register_node_type_cmp_planetrackdeform` of `node_composite_planetrackdeform.cc`. -/
def register_node_type_cmp_planetrackdeform (registry : List bNodeType) : List bNodeType :=
  let ntype := bNodeType.zeroed
  let ntype := cmp_node_type_base ntype .CMP_NODE_PLANETRACKDEFORM "Plane Track Deform"
    .NODE_CLASS_DISTORT 0
  let ntype := { ntype with declare := some cmp_node_planetrackdeform_declare }
  let ntype := node_type_init ntype planetrackdeform_init
  let ntype := node_type_storage ntype "NodePlaneTrackDeformData" "node_free_standard_storage"
    "node_copy_standard_storage"
  nodeRegisterType registry ntype

/-- The table after the six registration functions of these files have run on an empty one. -/
def registered_node_types : List bNodeType :=
  register_node_type_cmp_planetrackdeform
    (register_node_type_cmp_map_range
      (register_node_type_cmp_keyingscreen
        (register_node_type_cmp_glare
          (register_node_type_cmp_doubleedgemask
            (register_node_type_cmp_crop [])))))

/-- The sockets a node type declares: its `declare` callback run on an empty builder. -/
def bNodeType.declaration (ntype : bNodeType) : NodeDeclarationBuilder :=
  match ntype.declare with
  | some declare => declare { inputs := [], outputs := [] }
  | none => { inputs := [], outputs := [] }

/-- A sample heap with one block in it, and a sample node that points to that block. -/
def sample_heap : Heap :=
  { blocks := [{ struct_name := "NodeTwoXYs", alloc_name := "node xy data",
                 stored := [("x1", 7)] }] }

/-- A sample node whose storage points to the block of `sample_heap`. -/
def sample_node : bNode := { storage := some 0 }

/-- A sample node tree. -/
def sample_ntree : bNodeTree := { name := "Compositing Nodetree" }

/-- The node type that `register_node_type_cmp_doubleedgemask` registers. -/
def double_edge_mask_ntype : bNodeType :=
  { cmp_node_type_base bNodeType.zeroed .CMP_NODE_DOUBLEEDGEMASK "Double Edge Mask"
      .NODE_CLASS_MATTE 0 with declare := some cmp_node_double_edge_mask_declare }

/-- The node type that `register_node_type_cmp_glare` registers. -/
def glare_ntype : bNodeType :=
  node_type_storage (node_type_init
    { cmp_node_type_base bNodeType.zeroed .CMP_NODE_GLARE "Glare" .NODE_CLASS_OP_FILTER 0 with
      declare := some cmp_node_glare_declare } node_composit_init_glare)
    "NodeGlare" "node_free_standard_storage" "node_copy_standard_storage"

/-! ## Lemmas on the embedding -/

theorem clear_flag_and (x f : Nat) : clear_flag x f &&& f = 0 := by
  apply Nat.eq_of_testBit_eq
  intro i
  simp only [clear_flag, Nat.testBit_and, Nat.testBit_xor, Nat.zero_testBit]
  cases x.testBit i <;> cases f.testBit i <;> rfl

theorem or_and_flag (x f : Nat) : (x ||| f) &&& f = f := by
  apply Nat.eq_of_testBit_eq
  intro i
  simp only [Nat.testBit_and, Nat.testBit_or]
  cases x.testBit i <;> cases f.testBit i <;> rfl

theorem tag_all_false_ids (bmain : Main) (tag : Nat) :
    ∀ id ∈ (BKE_main_id_tag_all bmain tag false).ids, id.has_tag tag = false := by
  intro id hid
  simp only [BKE_main_id_tag_all, List.mem_map] at hid
  obtain ⟨a, _, rfl⟩ := hid
  simp [ID.has_tag, clear_flag_and]

theorem tag_all_true_ids (bmain : Main) (tag : Nat) (htag : tag ≠ 0) :
    ∀ id ∈ (BKE_main_id_tag_all bmain tag true).ids, id.has_tag tag = true := by
  intro id hid
  simp only [BKE_main_id_tag_all, List.mem_map] at hid
  obtain ⟨a, _, rfl⟩ := hid
  simp [ID.has_tag, or_and_flag, htag]

theorem deselect_all_bases (view_layer : ViewLayer) :
    ∀ base ∈ (BKE_view_layer_base_deselect_all view_layer).object_bases,
      base.selected = false := by
  intro base hbase
  simp only [BKE_view_layer_base_deselect_all, List.mem_map] at hbase
  obtain ⟨a, _, rfl⟩ := hbase
  simp [Base.selected, clear_flag_and]

theorem BKE_copybuffer_read_eq (env : Env) (libname : String) (mask : Nat) (s : State) :
    BKE_copybuffer_read env libname mask s =
      if read_num_pasted env libname mask s = BLENDFILE_LINK_APPEND_INVALID then
        (false, (link_append_context_setup env (BLO_library_link_params_init 0 0) libname mask
          s).2.2.call Call.link_append_context_free id)
      else
        (true, (copybuffer_append env
          (link_append_context_setup env (BLO_library_link_params_init 0 0) libname mask s).2.1
          (link_append_context_setup env (BLO_library_link_params_init 0 0) libname mask
            s).2.2).call Call.link_append_context_free id) := rfl

theorem BKE_copybuffer_paste_eq (env : Env) (C : bContext) (libname : String) (flag : Int)
    (mask : Nat) (s : State) :
    BKE_copybuffer_paste env C libname flag mask s =
      if paste_num_pasted env C libname flag mask s = BLENDFILE_LINK_APPEND_INVALID then
        (0, (link_append_context_setup env
          (BLO_library_link_params_init_with_context flag 0 C.scene C.v3d) libname mask
          s).2.2.call Call.link_append_context_free id)
      else
        (paste_num_pasted env C libname flag mask s,
          (copybuffer_append env
            (link_append_context_setup env
              (BLO_library_link_params_init_with_context flag 0 C.scene C.v3d) libname mask s).2.1
            ((link_append_context_setup env
              (BLO_library_link_params_init_with_context flag 0 C.scene C.v3d) libname mask
              s).2.2.call Call.view_layer_base_deselect_all
                (on_view_layer BKE_view_layer_base_deselect_all))).call
            Call.link_append_context_free id) := rfl

/-- The calls of `copybuffer_append`, in order. -/
theorem copybuffer_append_calls (env : Env) (lapp_context : BlendfileLinkAppendContext)
    (s : State) :
    calls_after s.trace.length (copybuffer_append env lapp_context s)
      = [Call.main_id_tag_all LIB_TAG_PRE_EXISTING true, Call.blendfile_link lapp_context,
         Call.main_lib_objects_recalc_all, Call.colormanagement_check_file_config,
         Call.blendfile_append lapp_context, Call.main_id_tag_all LIB_TAG_PRE_EXISTING false,
         Call.relations_tag_update] := by
  simp [calls_after, copybuffer_append, State.call]

/-- The `World` on which `copybuffer_append` issues the link step: the one it was given, with
`LIB_TAG_PRE_EXISTING` set on all IDs. -/
theorem copybuffer_append_link_before (env : Env) (lapp_context : BlendfileLinkAppendContext)
    (s : State) :
    ∀ st ∈ steps_after s.trace.length (copybuffer_append env lapp_context s),
      ∀ ctx, st.call = Call.blendfile_link ctx →
        st.before = on_bmain (fun bmain => BKE_main_id_tag_all bmain LIB_TAG_PRE_EXISTING true)
          s.world := by
  intro st hst ctx hcall
  simp [steps_after, copybuffer_append, State.call] at hst
  rcases hst with rfl | rfl | rfl | rfl | rfl | rfl | rfl <;> simp_all

/-- After `copybuffer_append` no ID carries `LIB_TAG_PRE_EXISTING` and the relations are
tagged. -/
theorem copybuffer_append_after (env : Env) (lapp_context : BlendfileLinkAppendContext)
    (s : State) :
    (∀ id ∈ (copybuffer_append env lapp_context s).world.bmain.ids,
      id.has_tag LIB_TAG_PRE_EXISTING = false) ∧
    (copybuffer_append env lapp_context s).world.bmain.relations_tagged = true := by
  constructor
  · intro id hid
    simp only [copybuffer_append, State.call, on_bmain, DEG_relations_tag_update] at hid
    exact tag_all_false_ids _ _ id hid
  · simp [copybuffer_append, State.call, on_bmain, DEG_relations_tag_update]

theorem read_invalid (env : Env) (libname : String) (mask : Nat) (s : State)
    (h : read_num_pasted env libname mask s = BLENDFILE_LINK_APPEND_INVALID) :
    BKE_copybuffer_read env libname mask s =
      (false, (link_append_context_setup env (BLO_library_link_params_init 0 0) libname mask
        s).2.2.call Call.link_append_context_free id) := by
  rw [BKE_copybuffer_read_eq, if_pos h]

theorem read_valid (env : Env) (libname : String) (mask : Nat) (s : State)
    (h : read_num_pasted env libname mask s ≠ BLENDFILE_LINK_APPEND_INVALID) :
    BKE_copybuffer_read env libname mask s =
      (true, (copybuffer_append env
        (link_append_context_setup env (BLO_library_link_params_init 0 0) libname mask s).2.1
        (link_append_context_setup env (BLO_library_link_params_init 0 0) libname mask
          s).2.2).call Call.link_append_context_free id) := by
  rw [BKE_copybuffer_read_eq, if_neg h]

theorem paste_invalid (env : Env) (C : bContext) (libname : String) (flag : Int) (mask : Nat)
    (s : State)
    (h : paste_num_pasted env C libname flag mask s = BLENDFILE_LINK_APPEND_INVALID) :
    BKE_copybuffer_paste env C libname flag mask s =
      (0, (link_append_context_setup env
        (BLO_library_link_params_init_with_context flag 0 C.scene C.v3d) libname mask
        s).2.2.call Call.link_append_context_free id) := by
  rw [BKE_copybuffer_paste_eq, if_pos h]

theorem paste_valid (env : Env) (C : bContext) (libname : String) (flag : Int) (mask : Nat)
    (s : State)
    (h : paste_num_pasted env C libname flag mask s ≠ BLENDFILE_LINK_APPEND_INVALID) :
    BKE_copybuffer_paste env C libname flag mask s =
      (paste_num_pasted env C libname flag mask s,
        (copybuffer_append env
          (link_append_context_setup env
            (BLO_library_link_params_init_with_context flag 0 C.scene C.v3d) libname mask s).2.1
          ((link_append_context_setup env
            (BLO_library_link_params_init_with_context flag 0 C.scene C.v3d) libname mask
            s).2.2.call Call.view_layer_base_deselect_all
              (on_view_layer BKE_view_layer_base_deselect_all))).call
          Call.link_append_context_free id) := by
  rw [BKE_copybuffer_paste_eq, if_neg h]

/-- The calls of a read that passes source resolution. -/
theorem read_valid_calls (env : Env) (libname : String) (mask : Nat) (s : State)
    (h : read_num_pasted env libname mask s ≠ BLENDFILE_LINK_APPEND_INVALID) :
    calls_after s.trace.length (BKE_copybuffer_read env libname mask s).2
      = [Call.link_append_context_new (BLO_library_link_params_init 0 0),
         Call.link_append_context_library_add libname,
         Call.link_append_context_item_idtypes_from_library_add mask 0,
         Call.main_id_tag_all LIB_TAG_PRE_EXISTING true,
         Call.blendfile_link (read_lapp_context env libname mask s),
         Call.main_lib_objects_recalc_all, Call.colormanagement_check_file_config,
         Call.blendfile_append (read_lapp_context env libname mask s),
         Call.main_id_tag_all LIB_TAG_PRE_EXISTING false, Call.relations_tag_update,
         Call.link_append_context_free] := by
  rw [read_valid env libname mask s h]
  simp [calls_after, copybuffer_append, link_append_context_setup, read_lapp_context, State.call]

/-- The calls of a paste that passes source resolution. -/
theorem paste_valid_calls (env : Env) (C : bContext) (libname : String) (flag : Int)
    (mask : Nat) (s : State)
    (h : paste_num_pasted env C libname flag mask s ≠ BLENDFILE_LINK_APPEND_INVALID) :
    calls_after s.trace.length (BKE_copybuffer_paste env C libname flag mask s).2
      = [Call.link_append_context_new
           (BLO_library_link_params_init_with_context flag 0 C.scene C.v3d),
         Call.link_append_context_library_add libname,
         Call.link_append_context_item_idtypes_from_library_add mask 0,
         Call.view_layer_base_deselect_all,
         Call.main_id_tag_all LIB_TAG_PRE_EXISTING true,
         Call.blendfile_link (paste_lapp_context env C libname flag mask s),
         Call.main_lib_objects_recalc_all, Call.colormanagement_check_file_config,
         Call.blendfile_append (paste_lapp_context env C libname flag mask s),
         Call.main_id_tag_all LIB_TAG_PRE_EXISTING false, Call.relations_tag_update,
         Call.link_append_context_free] := by
  rw [paste_valid env C libname flag mask s h]
  simp [calls_after, copybuffer_append, link_append_context_setup, paste_lapp_context, State.call]

theorem zero_ne_invalid : (0 : Int) ≠ BLENDFILE_LINK_APPEND_INVALID := by decide

/-! ## The claims -/

/-- C1: when the item-collection step yields a count `n` other than
`BLENDFILE_LINK_APPEND_INVALID`, `BKE_copybuffer_paste` returns exactly `n`; when the step yields
`BLENDFILE_LINK_APPEND_INVALID` it returns `0`; and the returned value is the same under any
other link, recalc, colour-management and append steps, so it does not count what those pull
into the document. -/
theorem paste_returns_num_pasted (env : Env) (C : bContext) (libname : String) (flag : Int)
    (id_types_mask : Nat) (s : State) (n : Int)
    (hn : paste_num_pasted env C libname flag id_types_mask s = n) :
    (n ≠ BLENDFILE_LINK_APPEND_INVALID →
      (BKE_copybuffer_paste env C libname flag id_types_mask s).1 = n) ∧
    (n = BLENDFILE_LINK_APPEND_INVALID →
      (BKE_copybuffer_paste env C libname flag id_types_mask s).1 = 0) ∧
    (∀ env' : Env,
      env'.BKE_blendfile_link_append_context_item_idtypes_from_library_add
        = env.BKE_blendfile_link_append_context_item_idtypes_from_library_add →
      (BKE_copybuffer_paste env' C libname flag id_types_mask s).1
        = (BKE_copybuffer_paste env C libname flag id_types_mask s).1) := by
  subst hn
  refine ⟨fun h => ?_, fun h => ?_, fun env' henv => ?_⟩
  · rw [paste_valid env C libname flag id_types_mask s h]
  · rw [paste_invalid env C libname flag id_types_mask s h]
  · have hnum : paste_num_pasted env' C libname flag id_types_mask s
        = paste_num_pasted env C libname flag id_types_mask s := by
      simp [paste_num_pasted, link_append_context_setup, henv]
    rw [BKE_copybuffer_paste_eq, BKE_copybuffer_paste_eq, hnum]
    split <;> rfl

/-- Instance of C1: pasting everything from the sample buffer returns `2`, also when the link
step pulls nothing in; pasting from an unreadable buffer returns `0`. -/
theorem paste_returns_num_pasted_witness :
    (paste_num_pasted sample_env sample_context "copybuffer.blend" 0 0 sample_state = 2 ∧
      (BKE_copybuffer_paste sample_env sample_context "copybuffer.blend" 0 0 sample_state).1 = 2 ∧
      (BKE_copybuffer_paste { sample_env with BKE_blendfile_link := fun _ w => w } sample_context
        "copybuffer.blend" 0 0 sample_state).1
        = (BKE_copybuffer_paste sample_env sample_context "copybuffer.blend" 0 0 sample_state).1) ∧
    (paste_num_pasted sample_env sample_context "missing.blend" 0 0 sample_state
        = BLENDFILE_LINK_APPEND_INVALID ∧
      (BKE_copybuffer_paste sample_env sample_context "missing.blend" 0 0 sample_state).1 = 0) :=
  ⟨⟨by decide,
    (paste_returns_num_pasted sample_env sample_context "copybuffer.blend" 0 0 sample_state 2
      (by decide)).1 (by decide),
    (paste_returns_num_pasted sample_env sample_context "copybuffer.blend" 0 0 sample_state 2
      (by decide)).2.2 _ rfl⟩,
   ⟨by decide,
    (paste_returns_num_pasted sample_env sample_context "missing.blend" 0 0 sample_state
      BLENDFILE_LINK_APPEND_INVALID (by decide)).2.1 rfl⟩⟩

/-- C2, as stated, fails: on the sample document, in which the camera already carries
`LIB_TAG_PRE_EXISTING`, a read and a paste from an unreadable buffer both return with the camera
still carrying the tag. -/
theorem pre_existing_tag_survives_invalid_source :
    (¬ ∀ id ∈ (BKE_copybuffer_read sample_env "missing.blend" 0 sample_state).2.world.bmain.ids,
        id.has_tag LIB_TAG_PRE_EXISTING = false) ∧
    (¬ ∀ id ∈ (BKE_copybuffer_paste sample_env sample_context "missing.blend" 0 0
        sample_state).2.world.bmain.ids, id.has_tag LIB_TAG_PRE_EXISTING = false) := by
  decide

/-- C2, amended: after a call of `BKE_copybuffer_paste` or `BKE_copybuffer_read` in which the
item-collection step did not yield `BLENDFILE_LINK_APPEND_INVALID`, no ID of the destination
`Main` carries `LIB_TAG_PRE_EXISTING`, whatever the prior tags and whatever the link and append
steps added; when the step yields `BLENDFILE_LINK_APPEND_INVALID` the `Main` is the one before
the call, tags included. -/
theorem no_pre_existing_tag_after_resolved_paste (env : Env) (C : bContext) (libname : String)
    (flag : Int) (id_types_mask : Nat) (s : State) :
    (paste_num_pasted env C libname flag id_types_mask s ≠ BLENDFILE_LINK_APPEND_INVALID →
      ∀ id ∈ (BKE_copybuffer_paste env C libname flag id_types_mask s).2.world.bmain.ids,
        id.has_tag LIB_TAG_PRE_EXISTING = false) ∧
    (read_num_pasted env libname id_types_mask s ≠ BLENDFILE_LINK_APPEND_INVALID →
      ∀ id ∈ (BKE_copybuffer_read env libname id_types_mask s).2.world.bmain.ids,
        id.has_tag LIB_TAG_PRE_EXISTING = false) ∧
    (paste_num_pasted env C libname flag id_types_mask s = BLENDFILE_LINK_APPEND_INVALID →
      (BKE_copybuffer_paste env C libname flag id_types_mask s).2.world.bmain = s.world.bmain) ∧
    (read_num_pasted env libname id_types_mask s = BLENDFILE_LINK_APPEND_INVALID →
      (BKE_copybuffer_read env libname id_types_mask s).2.world.bmain = s.world.bmain) := by
  refine ⟨fun h => ?_, fun h => ?_, fun h => ?_, fun h => ?_⟩
  · rw [paste_valid env C libname flag id_types_mask s h]
    exact (copybuffer_append_after env _ _).1
  · rw [read_valid env libname id_types_mask s h]
    exact (copybuffer_append_after env _ _).1
  · rw [paste_invalid env C libname flag id_types_mask s h]
    rfl
  · rw [read_invalid env libname id_types_mask s h]
    rfl

/-- Instance of amended C2 on the sample document, whose camera carries the tag beforehand:
after pasting and after reading the sample buffer no ID carries it. -/
theorem no_pre_existing_tag_after_resolved_paste_witness :
    (paste_num_pasted sample_env sample_context "copybuffer.blend" 0 0 sample_state
        ≠ BLENDFILE_LINK_APPEND_INVALID ∧
      ∀ id ∈ (BKE_copybuffer_paste sample_env sample_context "copybuffer.blend" 0 0
        sample_state).2.world.bmain.ids, id.has_tag LIB_TAG_PRE_EXISTING = false) ∧
    (read_num_pasted sample_env "copybuffer.blend" 0 sample_state
        ≠ BLENDFILE_LINK_APPEND_INVALID ∧
      ∀ id ∈ (BKE_copybuffer_read sample_env "copybuffer.blend" 0 sample_state).2.world.bmain.ids,
        id.has_tag LIB_TAG_PRE_EXISTING = false) ∧
    (paste_num_pasted sample_env sample_context "missing.blend" 0 0 sample_state
        = BLENDFILE_LINK_APPEND_INVALID ∧
      (BKE_copybuffer_paste sample_env sample_context "missing.blend" 0 0
        sample_state).2.world.bmain = sample_state.world.bmain) ∧
    (read_num_pasted sample_env "missing.blend" 0 sample_state = BLENDFILE_LINK_APPEND_INVALID ∧
      (BKE_copybuffer_read sample_env "missing.blend" 0 sample_state).2.world.bmain
        = sample_state.world.bmain) :=
  ⟨⟨by decide, (no_pre_existing_tag_after_resolved_paste sample_env sample_context
      "copybuffer.blend" 0 0 sample_state).1 (by decide)⟩,
   ⟨by decide, (no_pre_existing_tag_after_resolved_paste sample_env sample_context
      "copybuffer.blend" 0 0 sample_state).2.1 (by decide)⟩,
   ⟨by decide, (no_pre_existing_tag_after_resolved_paste sample_env sample_context
      "missing.blend" 0 0 sample_state).2.2.1 (by decide)⟩,
   ⟨by decide, (no_pre_existing_tag_after_resolved_paste sample_env sample_context
      "missing.blend" 0 0 sample_state).2.2.2 (by decide)⟩⟩

/-- C3, as stated, fails: the sample buffer holds no ID of the type asked for by mask `8`, so
the item-collection step finds zero items, and yet `BKE_copybuffer_read` returns `true` and
neither call leaves the document as it was: after the read and after the paste the relations of
the dependency graph, untagged before, are tagged, and after the paste the camera, selected
before, is no longer selected. -/
theorem empty_match_is_not_failure :
    read_num_pasted sample_env "copybuffer.blend" 8 sample_state = 0 ∧
    paste_num_pasted sample_env sample_context "copybuffer.blend" 0 8 sample_state = 0 ∧
    (BKE_copybuffer_read sample_env "copybuffer.blend" 8 sample_state).1 = true ∧
    sample_state.world.bmain.relations_tagged = false ∧
    (BKE_copybuffer_read sample_env "copybuffer.blend" 8
      sample_state).2.world.bmain.relations_tagged = true ∧
    (BKE_copybuffer_paste sample_env sample_context "copybuffer.blend" 0 8
      sample_state).2.world.bmain.relations_tagged = true ∧
    (sample_state.world.view_layer.object_bases.map Base.selected = [true, false]) ∧
    ((BKE_copybuffer_paste sample_env sample_context "copybuffer.blend" 0 8
      sample_state).2.world.view_layer.object_bases.map Base.selected = [false, false]) ∧
    ¬ ((BKE_copybuffer_read sample_env "copybuffer.blend" 8 sample_state).1 = false ∧
      (BKE_copybuffer_read sample_env "copybuffer.blend" 8 sample_state).2.world.bmain
        = sample_state.world.bmain ∧
      (BKE_copybuffer_paste sample_env sample_context "copybuffer.blend" 0 8
        sample_state).2.world.bmain = sample_state.world.bmain ∧
      (BKE_copybuffer_paste sample_env sample_context "copybuffer.blend" 0 8
        sample_state).2.world.view_layer = sample_state.world.view_layer) := by
  decide

/-- C3, amended: when the requested types match nothing and the item-collection step yields the
count `0`, `BKE_copybuffer_paste` returns `0` and `BKE_copybuffer_read` returns `true`, and both
run the whole sequence (the paste deselecting all bases first), after which the relations of the
dependency graph are tagged and no ID carries `LIB_TAG_PRE_EXISTING`. The document (`Main` with
its IDs, tags and relations flag, and the view layer with its selection) is identical before and
after, with `false` and `0` returned, when the step yields
`BLENDFILE_LINK_APPEND_INVALID`. -/
theorem empty_match_runs_paste_sequence (env : Env) (C : bContext) (libname : String)
    (flag : Int) (id_types_mask : Nat) (s : State) :
    (read_num_pasted env libname id_types_mask s = 0 →
      (BKE_copybuffer_read env libname id_types_mask s).1 = true ∧
      calls_after s.trace.length (BKE_copybuffer_read env libname id_types_mask s).2
        = [Call.link_append_context_new (BLO_library_link_params_init 0 0),
           Call.link_append_context_library_add libname,
           Call.link_append_context_item_idtypes_from_library_add id_types_mask 0,
           Call.main_id_tag_all LIB_TAG_PRE_EXISTING true,
           Call.blendfile_link (read_lapp_context env libname id_types_mask s),
           Call.main_lib_objects_recalc_all, Call.colormanagement_check_file_config,
           Call.blendfile_append (read_lapp_context env libname id_types_mask s),
           Call.main_id_tag_all LIB_TAG_PRE_EXISTING false, Call.relations_tag_update,
           Call.link_append_context_free] ∧
      (BKE_copybuffer_read env libname id_types_mask s).2.world.bmain.relations_tagged = true ∧
      ∀ id ∈ (BKE_copybuffer_read env libname id_types_mask s).2.world.bmain.ids,
        id.has_tag LIB_TAG_PRE_EXISTING = false) ∧
    (paste_num_pasted env C libname flag id_types_mask s = 0 →
      (BKE_copybuffer_paste env C libname flag id_types_mask s).1 = 0 ∧
      calls_after s.trace.length (BKE_copybuffer_paste env C libname flag id_types_mask s).2
        = [Call.link_append_context_new
             (BLO_library_link_params_init_with_context flag 0 C.scene C.v3d),
           Call.link_append_context_library_add libname,
           Call.link_append_context_item_idtypes_from_library_add id_types_mask 0,
           Call.view_layer_base_deselect_all,
           Call.main_id_tag_all LIB_TAG_PRE_EXISTING true,
           Call.blendfile_link (paste_lapp_context env C libname flag id_types_mask s),
           Call.main_lib_objects_recalc_all, Call.colormanagement_check_file_config,
           Call.blendfile_append (paste_lapp_context env C libname flag id_types_mask s),
           Call.main_id_tag_all LIB_TAG_PRE_EXISTING false, Call.relations_tag_update,
           Call.link_append_context_free] ∧
      (BKE_copybuffer_paste env C libname flag id_types_mask s).2.world.bmain.relations_tagged
        = true ∧
      ∀ id ∈ (BKE_copybuffer_paste env C libname flag id_types_mask s).2.world.bmain.ids,
        id.has_tag LIB_TAG_PRE_EXISTING = false) ∧
    (read_num_pasted env libname id_types_mask s = BLENDFILE_LINK_APPEND_INVALID →
      (BKE_copybuffer_read env libname id_types_mask s).1 = false ∧
      (BKE_copybuffer_read env libname id_types_mask s).2.world.bmain = s.world.bmain ∧
      (BKE_copybuffer_read env libname id_types_mask s).2.world.view_layer
        = s.world.view_layer) ∧
    (paste_num_pasted env C libname flag id_types_mask s = BLENDFILE_LINK_APPEND_INVALID →
      (BKE_copybuffer_paste env C libname flag id_types_mask s).1 = 0 ∧
      (BKE_copybuffer_paste env C libname flag id_types_mask s).2.world.bmain = s.world.bmain ∧
      (BKE_copybuffer_paste env C libname flag id_types_mask s).2.world.view_layer
        = s.world.view_layer) := by
  refine ⟨fun h => ?_, fun h => ?_, fun h => ?_, fun h => ?_⟩
  · have hne : read_num_pasted env libname id_types_mask s ≠ BLENDFILE_LINK_APPEND_INVALID := by
      rw [h]; exact zero_ne_invalid
    refine ⟨?_, read_valid_calls env libname id_types_mask s hne, ?_, ?_⟩
    · rw [read_valid env libname id_types_mask s hne]
    · rw [read_valid env libname id_types_mask s hne]
      exact (copybuffer_append_after env _ _).2
    · rw [read_valid env libname id_types_mask s hne]
      exact (copybuffer_append_after env _ _).1
  · have hne : paste_num_pasted env C libname flag id_types_mask s
        ≠ BLENDFILE_LINK_APPEND_INVALID := by
      rw [h]; exact zero_ne_invalid
    refine ⟨?_, paste_valid_calls env C libname flag id_types_mask s hne, ?_, ?_⟩
    · rw [paste_valid env C libname flag id_types_mask s hne]
      exact h
    · rw [paste_valid env C libname flag id_types_mask s hne]
      exact (copybuffer_append_after env _ _).2
    · rw [paste_valid env C libname flag id_types_mask s hne]
      exact (copybuffer_append_after env _ _).1
  · rw [read_invalid env libname id_types_mask s h]
    exact ⟨rfl, rfl, rfl⟩
  · rw [paste_invalid env C libname flag id_types_mask s h]
    exact ⟨rfl, rfl, rfl⟩

/-- Instance of amended C3 on the sample document and buffer with mask `8`, which matches
nothing, and with an unreadable buffer. -/
theorem empty_match_runs_paste_sequence_witness :
    (read_num_pasted sample_env "copybuffer.blend" 8 sample_state = 0 ∧
      (BKE_copybuffer_read sample_env "copybuffer.blend" 8 sample_state).1 = true ∧
      (BKE_copybuffer_read sample_env "copybuffer.blend" 8
        sample_state).2.world.bmain.relations_tagged = true) ∧
    (paste_num_pasted sample_env sample_context "copybuffer.blend" 0 8 sample_state = 0 ∧
      (BKE_copybuffer_paste sample_env sample_context "copybuffer.blend" 0 8 sample_state).1 = 0 ∧
      (BKE_copybuffer_paste sample_env sample_context "copybuffer.blend" 0 8
        sample_state).2.world.bmain.relations_tagged = true) ∧
    (read_num_pasted sample_env "missing.blend" 8 sample_state = BLENDFILE_LINK_APPEND_INVALID ∧
      (BKE_copybuffer_read sample_env "missing.blend" 8 sample_state).1 = false ∧
      (BKE_copybuffer_read sample_env "missing.blend" 8 sample_state).2.world.bmain
        = sample_state.world.bmain) ∧
    (paste_num_pasted sample_env sample_context "missing.blend" 0 8 sample_state
        = BLENDFILE_LINK_APPEND_INVALID ∧
      (BKE_copybuffer_paste sample_env sample_context "missing.blend" 0 8 sample_state).1 = 0 ∧
      (BKE_copybuffer_paste sample_env sample_context "missing.blend" 0 8
        sample_state).2.world.view_layer = sample_state.world.view_layer) :=
  have hread := (empty_match_runs_paste_sequence sample_env sample_context "copybuffer.blend" 0 8
    sample_state).1 (by decide)
  have hpaste := (empty_match_runs_paste_sequence sample_env sample_context "copybuffer.blend" 0 8
    sample_state).2.1 (by decide)
  have hread_inv := (empty_match_runs_paste_sequence sample_env sample_context "missing.blend" 0 8
    sample_state).2.2.1 (by decide)
  have hpaste_inv := (empty_match_runs_paste_sequence sample_env sample_context "missing.blend"
    0 8 sample_state).2.2.2 (by decide)
  ⟨⟨by decide, hread.1, hread.2.2.1⟩, ⟨by decide, hpaste.1, hpaste.2.2.1⟩,
   ⟨by decide, hread_inv.1, hread_inv.2.1⟩, ⟨by decide, hpaste_inv.1, hpaste_inv.2.2⟩⟩

/-- C4: when the item-collection step returns `BLENDFILE_LINK_APPEND_INVALID`,
`BKE_copybuffer_read` returns `false` and `BKE_copybuffer_paste` returns `0`; the calls issued
are exactly those that build the context and collect the items, followed by the freeing of the
context (so no tagging, deselect, link, recalc, append or dependency-graph call), every one of
them is issued on the `Main` and view layer of before the call, and both are unchanged when
the function returns. -/
theorem invalid_source_aborts_before_mutation (env : Env) (C : bContext) (libname : String)
    (flag : Int) (id_types_mask : Nat) (s : State) :
    (read_num_pasted env libname id_types_mask s = BLENDFILE_LINK_APPEND_INVALID →
      (BKE_copybuffer_read env libname id_types_mask s).1 = false ∧
      calls_after s.trace.length (BKE_copybuffer_read env libname id_types_mask s).2
        = [Call.link_append_context_new (BLO_library_link_params_init 0 0),
           Call.link_append_context_library_add libname,
           Call.link_append_context_item_idtypes_from_library_add id_types_mask 0,
           Call.link_append_context_free] ∧
      (∀ st ∈ steps_after s.trace.length (BKE_copybuffer_read env libname id_types_mask s).2,
        st.before.bmain = s.world.bmain ∧ st.before.view_layer = s.world.view_layer) ∧
      (BKE_copybuffer_read env libname id_types_mask s).2.world.bmain = s.world.bmain ∧
      (BKE_copybuffer_read env libname id_types_mask s).2.world.view_layer
        = s.world.view_layer) ∧
    (paste_num_pasted env C libname flag id_types_mask s = BLENDFILE_LINK_APPEND_INVALID →
      (BKE_copybuffer_paste env C libname flag id_types_mask s).1 = 0 ∧
      calls_after s.trace.length (BKE_copybuffer_paste env C libname flag id_types_mask s).2
        = [Call.link_append_context_new
             (BLO_library_link_params_init_with_context flag 0 C.scene C.v3d),
           Call.link_append_context_library_add libname,
           Call.link_append_context_item_idtypes_from_library_add id_types_mask 0,
           Call.link_append_context_free] ∧
      (∀ st ∈ steps_after s.trace.length
          (BKE_copybuffer_paste env C libname flag id_types_mask s).2,
        st.before.bmain = s.world.bmain ∧ st.before.view_layer = s.world.view_layer) ∧
      (BKE_copybuffer_paste env C libname flag id_types_mask s).2.world.bmain = s.world.bmain ∧
      (BKE_copybuffer_paste env C libname flag id_types_mask s).2.world.view_layer
        = s.world.view_layer) := by
  refine ⟨fun h => ?_, fun h => ?_⟩
  · rw [read_invalid env libname id_types_mask s h]
    refine ⟨rfl, ?_, ?_, rfl, rfl⟩
    · simp [calls_after, link_append_context_setup, State.call]
    · intro st hst
      simp [steps_after, link_append_context_setup, State.call] at hst
      rcases hst with rfl | rfl | rfl | rfl <;> exact ⟨rfl, rfl⟩
  · rw [paste_invalid env C libname flag id_types_mask s h]
    refine ⟨rfl, ?_, ?_, rfl, rfl⟩
    · simp [calls_after, link_append_context_setup, State.call]
    · intro st hst
      simp [steps_after, link_append_context_setup, State.call] at hst
      rcases hst with rfl | rfl | rfl | rfl <;> exact ⟨rfl, rfl⟩

/-- Instance of C4 on the sample document with an unreadable buffer. -/
theorem invalid_source_aborts_before_mutation_witness :
    (read_num_pasted sample_env "missing.blend" 0 sample_state = BLENDFILE_LINK_APPEND_INVALID ∧
      (BKE_copybuffer_read sample_env "missing.blend" 0 sample_state).1 = false ∧
      calls_after 0 (BKE_copybuffer_read sample_env "missing.blend" 0 sample_state).2
        = [Call.link_append_context_new (BLO_library_link_params_init 0 0),
           Call.link_append_context_library_add "missing.blend",
           Call.link_append_context_item_idtypes_from_library_add 0 0,
           Call.link_append_context_free]) ∧
    (paste_num_pasted sample_env sample_context "missing.blend" 0 0 sample_state
        = BLENDFILE_LINK_APPEND_INVALID ∧
      (BKE_copybuffer_paste sample_env sample_context "missing.blend" 0 0 sample_state).1 = 0 ∧
      (BKE_copybuffer_paste sample_env sample_context "missing.blend" 0 0
        sample_state).2.world.view_layer = sample_state.world.view_layer) :=
  have hread := (invalid_source_aborts_before_mutation sample_env sample_context "missing.blend"
    0 0 sample_state).1 (by decide)
  have hpaste := (invalid_source_aborts_before_mutation sample_env sample_context "missing.blend"
    0 0 sample_state).2 (by decide)
  ⟨⟨by decide, hread.1, hread.2.1⟩, ⟨by decide, hpaste.1, hpaste.2.2.2.2⟩⟩

/-- C5: `BKE_copybuffer_copy_end` returns exactly the result of `BKE_blendfile_write_partial`
called on the file name with write flags `0` and relative path remapping, and, whatever that
result is, it issues after the write exactly one `BKE_blendfile_write_partial_end` and nothing
else, on the `Main` the write left. -/
theorem copy_end_returns_write_result (env : Env) (filename : String) (s : State) :
    (BKE_copybuffer_copy_end env filename s).1
      = (env.BKE_blendfile_write_partial s.world.bmain filename 0
          eBLO_WritePathRemap.BLO_WRITE_PATH_REMAP_RELATIVE s.world.reports).1 ∧
    calls_after s.trace.length (BKE_copybuffer_copy_end env filename s).2
      = [Call.write_partial filename 0 eBLO_WritePathRemap.BLO_WRITE_PATH_REMAP_RELATIVE,
         Call.write_partial_end] ∧
    (calls_after s.trace.length (BKE_copybuffer_copy_end env filename s).2).count
      Call.write_partial_end = 1 ∧
    (BKE_copybuffer_copy_end env filename s).2.world.bmain
      = env.BKE_blendfile_write_partial_end
          (env.BKE_blendfile_write_partial s.world.bmain filename 0
            eBLO_WritePathRemap.BLO_WRITE_PATH_REMAP_RELATIVE s.world.reports).2.1 := by
  have hcalls : calls_after s.trace.length (BKE_copybuffer_copy_end env filename s).2
      = [Call.write_partial filename 0 eBLO_WritePathRemap.BLO_WRITE_PATH_REMAP_RELATIVE,
         Call.write_partial_end] := by
    simp [calls_after, BKE_copybuffer_copy_end, State.call]
  refine ⟨rfl, hcalls, ?_, rfl⟩
  rw [hcalls]
  simp [List.count_cons]

/-- C6: on the failure and on the success path alike, `BKE_copybuffer_read` issues no deselect
call, and every set of link parameters it hands over (to the new context, to the link step and
to the append step) holds no scene, no view layer and no 3D view; hence, the link and append
steps leaving the view layer alone when given no view layer, the view layer and the selection
flag of every base in it are the same after the call as before. -/
theorem read_keeps_selection (env : Env) (libname : String) (id_types_mask : Nat) (s : State) :
    (∀ c ∈ calls_after s.trace.length (BKE_copybuffer_read env libname id_types_mask s).2,
      c ≠ Call.view_layer_base_deselect_all) ∧
    (∀ c ∈ calls_after s.trace.length (BKE_copybuffer_read env libname id_types_mask s).2,
      ∀ params, c.link_params = some params →
        params.context_scene = none ∧ params.context_view_layer = false ∧
        params.context_v3d = none) ∧
    (env.keeps_view_layer_without_context →
      (BKE_copybuffer_read env libname id_types_mask s).2.world.view_layer
        = s.world.view_layer) := by
  by_cases h : read_num_pasted env libname id_types_mask s = BLENDFILE_LINK_APPEND_INVALID
  · refine ⟨?_, ?_, fun _ => ?_⟩
    · intro c hc
      rw [read_invalid env libname id_types_mask s h] at hc
      simp [calls_after, link_append_context_setup, State.call] at hc
      rcases hc with rfl | rfl | rfl | rfl <;> simp
    · intro c hc params hparams
      rw [read_invalid env libname id_types_mask s h] at hc
      simp [calls_after, link_append_context_setup, State.call] at hc
      rcases hc with rfl | rfl | rfl | rfl <;>
        simp [Call.link_params] at hparams
      subst hparams
      exact ⟨rfl, rfl, rfl⟩
    · rw [read_invalid env libname id_types_mask s h]
      rfl
  · have hctx : (read_lapp_context env libname id_types_mask s).params
        = BLO_library_link_params_init 0 0 := rfl
    refine ⟨?_, ?_, fun hframe => ?_⟩
    · intro c hc
      rw [read_valid_calls env libname id_types_mask s h] at hc
      simp at hc
      rcases hc with rfl | rfl | rfl | rfl | rfl | rfl | rfl | rfl | rfl | rfl | rfl <;> simp
    · intro c hc params hparams
      rw [read_valid_calls env libname id_types_mask s h] at hc
      simp at hc
      rcases hc with rfl | rfl | rfl | rfl | rfl | rfl | rfl | rfl | rfl | rfl | rfl <;>
        simp [Call.link_params, hctx] at hparams <;>
        subst hparams <;>
        exact ⟨rfl, rfl, rfl⟩
    · rw [read_valid env libname id_types_mask s h]
      have hfalse : (link_append_context_setup env (BLO_library_link_params_init 0 0) libname
          id_types_mask s).2.1.params.context_view_layer = false := rfl
      simp only [copybuffer_append, State.call, on_bmain]
      rw [(hframe _ _ hfalse).2, (hframe _ _ hfalse).1]
      rfl

/-- Instance of C6: the sample link and append steps leave the view layer alone when given no
view layer, and reading the sample buffer into the sample document keeps the camera selected and
issues no deselect call. -/
theorem read_keeps_selection_witness :
    sample_env.keeps_view_layer_without_context ∧
    (BKE_copybuffer_read sample_env "copybuffer.blend" 0 sample_state).2.world.view_layer
      = sample_state.world.view_layer ∧
    Call.view_layer_base_deselect_all ∉
      calls_after 0 (BKE_copybuffer_read sample_env "copybuffer.blend" 0 sample_state).2 :=
  have hframe : sample_env.keeps_view_layer_without_context := by
    intro lapp_context w hnone
    simp [sample_env, hnone]
  have hread := read_keeps_selection sample_env "copybuffer.blend" 0 sample_state
  ⟨hframe, hread.2.2 hframe, fun hmem => hread.1 _ hmem rfl⟩

/-- C7, as stated, fails: a paste from an unreadable buffer into the sample document issues no
deselect call, and the camera, selected before the call, is still selected after it. -/
theorem paste_invalid_source_keeps_selection :
    Call.view_layer_base_deselect_all ∉
      calls_after 0 (BKE_copybuffer_paste sample_env sample_context "missing.blend" 0 0
        sample_state).2 ∧
    (∃ base ∈ sample_state.world.view_layer.object_bases, base.selected = true ∧
      base ∈ (BKE_copybuffer_paste sample_env sample_context "missing.blend" 0 0
        sample_state).2.world.view_layer.object_bases) := by
  decide

/-- C7, amended: every call of `BKE_copybuffer_paste` in which the item-collection step does not
yield `BLENDFILE_LINK_APPEND_INVALID` deselects all bases of the view layer, and does so before
the link and append steps: the deselect call precedes them in the calls issued, it is issued on
the view layer of before the call, and the link step is issued on that view layer with every
base deselected. A call in which the step yields `BLENDFILE_LINK_APPEND_INVALID` issues no
deselect call and leaves the view layer, selection included, as it was. -/
theorem resolved_paste_deselects_before_link (env : Env) (C : bContext) (libname : String)
    (flag : Int) (id_types_mask : Nat) (s : State) :
    (paste_num_pasted env C libname flag id_types_mask s ≠ BLENDFILE_LINK_APPEND_INVALID →
      calls_after s.trace.length (BKE_copybuffer_paste env C libname flag id_types_mask s).2
        = [Call.link_append_context_new
             (BLO_library_link_params_init_with_context flag 0 C.scene C.v3d),
           Call.link_append_context_library_add libname,
           Call.link_append_context_item_idtypes_from_library_add id_types_mask 0,
           Call.view_layer_base_deselect_all,
           Call.main_id_tag_all LIB_TAG_PRE_EXISTING true,
           Call.blendfile_link (paste_lapp_context env C libname flag id_types_mask s),
           Call.main_lib_objects_recalc_all, Call.colormanagement_check_file_config,
           Call.blendfile_append (paste_lapp_context env C libname flag id_types_mask s),
           Call.main_id_tag_all LIB_TAG_PRE_EXISTING false, Call.relations_tag_update,
           Call.link_append_context_free] ∧
      (∀ st ∈ steps_after s.trace.length
          (BKE_copybuffer_paste env C libname flag id_types_mask s).2,
        st.call = Call.view_layer_base_deselect_all →
          st.before.view_layer = s.world.view_layer) ∧
      (∀ st ∈ steps_after s.trace.length
          (BKE_copybuffer_paste env C libname flag id_types_mask s).2,
        ∀ lapp_context, st.call = Call.blendfile_link lapp_context →
          st.before.view_layer = BKE_view_layer_base_deselect_all s.world.view_layer ∧
          ∀ base ∈ st.before.view_layer.object_bases, base.selected = false)) ∧
    (paste_num_pasted env C libname flag id_types_mask s = BLENDFILE_LINK_APPEND_INVALID →
      Call.view_layer_base_deselect_all ∉
        calls_after s.trace.length (BKE_copybuffer_paste env C libname flag id_types_mask s).2 ∧
      (BKE_copybuffer_paste env C libname flag id_types_mask s).2.world.view_layer
        = s.world.view_layer) := by
  refine ⟨fun h => ⟨paste_valid_calls env C libname flag id_types_mask s h, ?_, ?_⟩,
    fun h => ⟨?_, ?_⟩⟩
  · intro st hst hcall
    rw [paste_valid env C libname flag id_types_mask s h] at hst
    simp [steps_after, copybuffer_append, link_append_context_setup, State.call] at hst
    rcases hst with rfl | rfl | rfl | rfl | rfl | rfl | rfl | rfl | rfl | rfl | rfl | rfl <;>
      simp_all
  · intro st hst lapp_context hcall
    rw [paste_valid env C libname flag id_types_mask s h] at hst
    simp [steps_after, copybuffer_append, link_append_context_setup, State.call] at hst
    have hview : st.before.view_layer = BKE_view_layer_base_deselect_all s.world.view_layer := by
      rcases hst with rfl | rfl | rfl | rfl | rfl | rfl | rfl | rfl | rfl | rfl | rfl | rfl <;>
        simp_all [on_bmain, on_view_layer]
    refine ⟨hview, ?_⟩
    rw [hview]
    exact deselect_all_bases _
  · rw [paste_invalid env C libname flag id_types_mask s h]
    simp [calls_after, link_append_context_setup, State.call]
  · rw [paste_invalid env C libname flag id_types_mask s h]
    rfl

/-- Instance of amended C7: pasting the sample buffer into the sample document, whose camera is
selected, issues the deselect call fourth, before the link and append calls; pasting from an
unreadable buffer leaves the view layer as it was. -/
theorem resolved_paste_deselects_before_link_witness :
    (paste_num_pasted sample_env sample_context "copybuffer.blend" 0 0 sample_state
        ≠ BLENDFILE_LINK_APPEND_INVALID ∧
      calls_after 0 (BKE_copybuffer_paste sample_env sample_context "copybuffer.blend" 0 0
          sample_state).2
        = [Call.link_append_context_new
             (BLO_library_link_params_init_with_context 0 0 sample_context.scene
               sample_context.v3d),
           Call.link_append_context_library_add "copybuffer.blend",
           Call.link_append_context_item_idtypes_from_library_add 0 0,
           Call.view_layer_base_deselect_all,
           Call.main_id_tag_all LIB_TAG_PRE_EXISTING true,
           Call.blendfile_link
             (paste_lapp_context sample_env sample_context "copybuffer.blend" 0 0 sample_state),
           Call.main_lib_objects_recalc_all, Call.colormanagement_check_file_config,
           Call.blendfile_append
             (paste_lapp_context sample_env sample_context "copybuffer.blend" 0 0 sample_state),
           Call.main_id_tag_all LIB_TAG_PRE_EXISTING false, Call.relations_tag_update,
           Call.link_append_context_free]) ∧
    (paste_num_pasted sample_env sample_context "missing.blend" 0 0 sample_state
        = BLENDFILE_LINK_APPEND_INVALID ∧
      (BKE_copybuffer_paste sample_env sample_context "missing.blend" 0 0
        sample_state).2.world.view_layer = sample_state.world.view_layer) :=
  ⟨⟨by decide,
    ((resolved_paste_deselects_before_link sample_env sample_context "copybuffer.blend" 0 0
      sample_state).1 (by decide)).1⟩,
   ⟨by decide,
    ((resolved_paste_deselects_before_link sample_env sample_context "missing.blend" 0 0
      sample_state).2 (by decide)).2⟩⟩

/-- C8: `copybuffer_append` performs, whatever the collaborators do, exactly these steps in this
order, each on the `World` the step before it left: set `LIB_TAG_PRE_EXISTING` on all IDs, link,
recalc library objects, check the colour-management config, append, clear
`LIB_TAG_PRE_EXISTING` on all IDs, tag the dependency-graph relations; the `World` it leaves is
the result of applying all seven, none skipped. The link step is issued on the IDs of before the
call, all carrying the tag; at the end no ID carries it and the relations are tagged. A read and
a paste that pass source resolution perform this sequence after building the context (the paste
after its deselect) and before freeing the context, and leave the `World` it leaves. -/
theorem copybuffer_append_order (env : Env) (lapp_context : BlendfileLinkAppendContext)
    (C : bContext) (libname : String) (flag : Int) (id_types_mask : Nat) (s : State) :
    calls_after s.trace.length (copybuffer_append env lapp_context s)
      = [Call.main_id_tag_all LIB_TAG_PRE_EXISTING true, Call.blendfile_link lapp_context,
         Call.main_lib_objects_recalc_all, Call.colormanagement_check_file_config,
         Call.blendfile_append lapp_context, Call.main_id_tag_all LIB_TAG_PRE_EXISTING false,
         Call.relations_tag_update] ∧
    (∀ st ∈ steps_after s.trace.length (copybuffer_append env lapp_context s),
      ∀ ctx, st.call = Call.blendfile_link ctx →
        st.before.bmain.ids.map ID.name = s.world.bmain.ids.map ID.name ∧
        ∀ id ∈ st.before.bmain.ids, id.has_tag LIB_TAG_PRE_EXISTING = true) ∧
    (∀ id ∈ (copybuffer_append env lapp_context s).world.bmain.ids,
      id.has_tag LIB_TAG_PRE_EXISTING = false) ∧
    (copybuffer_append env lapp_context s).world.bmain.relations_tagged = true ∧
    (read_num_pasted env libname id_types_mask s ≠ BLENDFILE_LINK_APPEND_INVALID →
      calls_after (s.trace.length + 3) (BKE_copybuffer_read env libname id_types_mask s).2
        = [Call.main_id_tag_all LIB_TAG_PRE_EXISTING true,
           Call.blendfile_link (read_lapp_context env libname id_types_mask s),
           Call.main_lib_objects_recalc_all, Call.colormanagement_check_file_config,
           Call.blendfile_append (read_lapp_context env libname id_types_mask s),
           Call.main_id_tag_all LIB_TAG_PRE_EXISTING false, Call.relations_tag_update,
           Call.link_append_context_free]) ∧
    (paste_num_pasted env C libname flag id_types_mask s ≠ BLENDFILE_LINK_APPEND_INVALID →
      calls_after (s.trace.length + 4)
          (BKE_copybuffer_paste env C libname flag id_types_mask s).2
        = [Call.main_id_tag_all LIB_TAG_PRE_EXISTING true,
           Call.blendfile_link (paste_lapp_context env C libname flag id_types_mask s),
           Call.main_lib_objects_recalc_all, Call.colormanagement_check_file_config,
           Call.blendfile_append (paste_lapp_context env C libname flag id_types_mask s),
           Call.main_id_tag_all LIB_TAG_PRE_EXISTING false, Call.relations_tag_update,
           Call.link_append_context_free]) ∧
    (copybuffer_append env lapp_context s).world
      = on_bmain DEG_relations_tag_update
          (on_bmain (fun bmain => BKE_main_id_tag_all bmain LIB_TAG_PRE_EXISTING false)
            (env.BKE_blendfile_append lapp_context
              (on_bmain env.IMB_colormanagement_check_file_config
                (on_bmain env.BKE_main_lib_objects_recalc_all
                  (env.BKE_blendfile_link lapp_context
                    (on_bmain (fun bmain => BKE_main_id_tag_all bmain LIB_TAG_PRE_EXISTING true)
                      s.world)))))) ∧
    (∃ w1 w2 w3 w4 w5 w6 : World,
      w1 = on_bmain (fun bmain => BKE_main_id_tag_all bmain LIB_TAG_PRE_EXISTING true) s.world ∧
      w2 = env.BKE_blendfile_link lapp_context w1 ∧
      w3 = on_bmain env.BKE_main_lib_objects_recalc_all w2 ∧
      w4 = on_bmain env.IMB_colormanagement_check_file_config w3 ∧
      w5 = env.BKE_blendfile_append lapp_context w4 ∧
      w6 = on_bmain (fun bmain => BKE_main_id_tag_all bmain LIB_TAG_PRE_EXISTING false) w5 ∧
      steps_after s.trace.length (copybuffer_append env lapp_context s)
        = [{ call := Call.main_id_tag_all LIB_TAG_PRE_EXISTING true, before := s.world },
           { call := Call.blendfile_link lapp_context, before := w1 },
           { call := Call.main_lib_objects_recalc_all, before := w2 },
           { call := Call.colormanagement_check_file_config, before := w3 },
           { call := Call.blendfile_append lapp_context, before := w4 },
           { call := Call.main_id_tag_all LIB_TAG_PRE_EXISTING false, before := w5 },
           { call := Call.relations_tag_update, before := w6 }] ∧
      (copybuffer_append env lapp_context s).world = on_bmain DEG_relations_tag_update w6) ∧
    (read_num_pasted env libname id_types_mask s ≠ BLENDFILE_LINK_APPEND_INVALID →
      (BKE_copybuffer_read env libname id_types_mask s).2.world
        = (copybuffer_append env (read_lapp_context env libname id_types_mask s)
            (link_append_context_setup env (BLO_library_link_params_init 0 0) libname
              id_types_mask s).2.2).world) ∧
    (paste_num_pasted env C libname flag id_types_mask s ≠ BLENDFILE_LINK_APPEND_INVALID →
      (BKE_copybuffer_paste env C libname flag id_types_mask s).2.world
        = (copybuffer_append env (paste_lapp_context env C libname flag id_types_mask s)
            ((link_append_context_setup env
              (BLO_library_link_params_init_with_context flag 0 C.scene C.v3d) libname
              id_types_mask s).2.2.call Call.view_layer_base_deselect_all
                (on_view_layer BKE_view_layer_base_deselect_all))).world) := by
  refine ⟨copybuffer_append_calls env lapp_context s, ?_,
    (copybuffer_append_after env lapp_context s).1,
    (copybuffer_append_after env lapp_context s).2, fun h => ?_, fun h => ?_, rfl,
    ⟨_, _, _, _, _, _, rfl, rfl, rfl, rfl, rfl, rfl, ?_, rfl⟩, fun h => ?_, fun h => ?_⟩
  · intro st hst ctx hcall
    rw [copybuffer_append_link_before env lapp_context s st hst ctx hcall]
    refine ⟨?_, tag_all_true_ids _ _ (by decide)⟩
    simp only [on_bmain, BKE_main_id_tag_all, List.map_map]
    apply List.map_congr_left
    intro id _
    simp
  · have hcalls := read_valid_calls env libname id_types_mask s h
    simp only [calls_after, ← List.drop_drop, List.map_drop] at hcalls ⊢
    rw [hcalls]
    rfl
  · have hcalls := paste_valid_calls env C libname flag id_types_mask s h
    simp only [calls_after, ← List.drop_drop, List.map_drop] at hcalls ⊢
    rw [hcalls]
    rfl
  · simp [steps_after, copybuffer_append, State.call]
  · rw [read_valid env libname id_types_mask s h]
    rfl
  · rw [paste_valid env C libname flag id_types_mask s h]
    rfl

/-- Instance of C8: reading and pasting the sample buffer into the sample document. After the
paste the document holds the camera and the light of before and the cube and its mesh that the
link step brought in and the append step made local, none carrying the tag. -/
theorem copybuffer_append_order_witness :
    (read_num_pasted sample_env "copybuffer.blend" 0 sample_state
        ≠ BLENDFILE_LINK_APPEND_INVALID ∧
      calls_after 3 (BKE_copybuffer_read sample_env "copybuffer.blend" 0 sample_state).2
        = [Call.main_id_tag_all LIB_TAG_PRE_EXISTING true,
           Call.blendfile_link (read_lapp_context sample_env "copybuffer.blend" 0 sample_state),
           Call.main_lib_objects_recalc_all, Call.colormanagement_check_file_config,
           Call.blendfile_append (read_lapp_context sample_env "copybuffer.blend" 0 sample_state),
           Call.main_id_tag_all LIB_TAG_PRE_EXISTING false, Call.relations_tag_update,
           Call.link_append_context_free]) ∧
    (paste_num_pasted sample_env sample_context "copybuffer.blend" 0 0 sample_state
        ≠ BLENDFILE_LINK_APPEND_INVALID ∧
      calls_after 4 (BKE_copybuffer_paste sample_env sample_context "copybuffer.blend" 0 0
          sample_state).2
        = [Call.main_id_tag_all LIB_TAG_PRE_EXISTING true,
           Call.blendfile_link
             (paste_lapp_context sample_env sample_context "copybuffer.blend" 0 0 sample_state),
           Call.main_lib_objects_recalc_all, Call.colormanagement_check_file_config,
           Call.blendfile_append
             (paste_lapp_context sample_env sample_context "copybuffer.blend" 0 0 sample_state),
           Call.main_id_tag_all LIB_TAG_PRE_EXISTING false, Call.relations_tag_update,
           Call.link_append_context_free] ∧
      (BKE_copybuffer_paste sample_env sample_context "copybuffer.blend" 0 0
          sample_state).2.world
        = (copybuffer_append sample_env
            (paste_lapp_context sample_env sample_context "copybuffer.blend" 0 0 sample_state)
            ((link_append_context_setup sample_env
              (BLO_library_link_params_init_with_context 0 0 sample_context.scene
                sample_context.v3d) "copybuffer.blend" 0
              sample_state).2.2.call Call.view_layer_base_deselect_all
                (on_view_layer BKE_view_layer_base_deselect_all))).world ∧
      (BKE_copybuffer_paste sample_env sample_context "copybuffer.blend" 0 0
          sample_state).2.world.bmain.ids
        = [{ name := "OBCamera", idcode := 1, tag := 0, lib := none },
           { name := "LALight", idcode := 3, tag := 0, lib := none },
           { name := "OBCube", idcode := 1, tag := 1, lib := none },
           { name := "MECube", idcode := 2, tag := 1, lib := none }]) :=
  have hall := copybuffer_append_order sample_env
    (read_lapp_context sample_env "copybuffer.blend" 0 sample_state) sample_context
    "copybuffer.blend" 0 0 sample_state
  ⟨⟨by decide, hall.2.2.2.2.1 (by decide)⟩,
   ⟨by decide, hall.2.2.2.2.2.1 (by decide), hall.2.2.2.2.2.2.2.2.2 (by decide), by decide⟩⟩

theorem store_fresh (blocks : List StorageBlock) (block : StorageBlock) (field : String)
    (value : ℚ) :
    Heap.store { blocks := blocks ++ [block] } blocks.length field value
      = { blocks := blocks ++ [{ block with stored := (field, value) :: block.stored }] } := by
  simp only [Heap.store, Heap.mk.injEq]
  induction blocks with
  | nil => rfl
  | cons head tail ih => simpa [List.modify_succ_cons] using ih

theorem read_of_not_assigned (block : StorageBlock) (field : String)
    (h : field ∉ block.assigned) : block.read field = 0 := by
  have hnone : (block.stored.find? fun entry => entry.1 == field) = none := by
    rw [List.find?_eq_none]
    intro entry hentry heq
    apply h
    simp only [StorageBlock.assigned, List.mem_map]
    exact ⟨entry, hentry, by simpa using heq⟩
  simp [StorageBlock.read, hnone]

theorem mem_registered_node_types (ntype : bNodeType) (h : ntype ∈ registered_node_types) :
    ntype = node_type_storage (node_type_init
        { cmp_node_type_base bNodeType.zeroed .CMP_NODE_CROP "Crop" .NODE_CLASS_DISTORT 0 with
          declare := some cmp_node_crop_declare } node_composit_init_crop)
        "NodeTwoXYs" "node_free_standard_storage" "node_copy_standard_storage" ∨
    ntype = { cmp_node_type_base bNodeType.zeroed .CMP_NODE_DOUBLEEDGEMASK "Double Edge Mask"
        .NODE_CLASS_MATTE 0 with declare := some cmp_node_double_edge_mask_declare } ∨
    ntype = node_type_storage (node_type_init
        { cmp_node_type_base bNodeType.zeroed .CMP_NODE_GLARE "Glare" .NODE_CLASS_OP_FILTER 0 with
          declare := some cmp_node_glare_declare } node_composit_init_glare)
        "NodeGlare" "node_free_standard_storage" "node_copy_standard_storage" ∨
    ntype = node_type_storage (node_type_init
        { cmp_node_type_base bNodeType.zeroed .CMP_NODE_KEYINGSCREEN "Keying Screen"
            .NODE_CLASS_MATTE 0 with
          declare := some cmp_node_keyingscreen_declare } node_composit_init_keyingscreen)
        "NodeKeyingScreenData" "node_free_standard_storage" "node_copy_standard_storage" ∨
    ntype = { cmp_node_type_base bNodeType.zeroed .CMP_NODE_MAP_RANGE "Map Range"
        .NODE_CLASS_OP_VECTOR 0 with declare := some cmp_node_map_range_declare } ∨
    ntype = node_type_storage (node_type_init
        { cmp_node_type_base bNodeType.zeroed .CMP_NODE_PLANETRACKDEFORM "Plane Track Deform"
            .NODE_CLASS_DISTORT 0 with
          declare := some cmp_node_planetrackdeform_declare } planetrackdeform_init)
        "NodePlaneTrackDeformData" "node_free_standard_storage" "node_copy_standard_storage" := by
  simpa [registered_node_types, register_node_type_cmp_crop,
    register_node_type_cmp_doubleedgemask, register_node_type_cmp_glare,
    register_node_type_cmp_keyingscreen, register_node_type_cmp_map_range,
    register_node_type_cmp_planetrackdeform, nodeRegisterType] using h

/-- C9: every float input socket to which a node declaration registered here gives a minimum
and a maximum has `min <= max` and a float default with `min <= default <= max`; these sockets
are Inner Mask and Outer Mask of Double Edge Mask and Value, From Min, From Max, To Min and
To Max of Map Range. -/
theorem clamped_float_inputs_hold_default :
    (registered_node_types.map fun ntype =>
        (ntype.ui_name, (ntype.declaration.inputs.filter fun socket =>
          socket.type == SocketType.Float && (socket.min.isSome || socket.max.isSome)).map
            SocketDeclaration.name))
      = [("Crop", []), ("Double Edge Mask", ["Inner Mask", "Outer Mask"]), ("Glare", []),
         ("Keying Screen", []),
         ("Map Range", ["Value", "From Min", "From Max", "To Min", "To Max"]),
         ("Plane Track Deform", [])] ∧
    ∀ ntype ∈ registered_node_types, ∀ socket ∈ ntype.declaration.inputs,
      socket.type = SocketType.Float → ∀ lo hi, socket.min = some lo → socket.max = some hi →
        lo ≤ hi ∧ ∃ d, socket.default_value = some (SocketValue.float d) ∧ lo ≤ d ∧ d ≤ hi := by
  refine ⟨by decide, ?_⟩
  intro ntype hnt socket hs hfloat lo hi hlo hhi
  rcases mem_registered_node_types ntype hnt with rfl | rfl | rfl | rfl | rfl | rfl
  · simp [bNodeType.declaration, node_type_storage, node_type_init, cmp_node_type_base,
      cmp_node_crop_declare, NodeDeclarationBuilder.add_input, NodeDeclarationBuilder.add_output,
      SocketDeclaration.new, SocketDeclaration.set_default_value] at hs
    subst hs
    simp at hlo
  · simp [bNodeType.declaration, cmp_node_type_base, cmp_node_double_edge_mask_declare,
      NodeDeclarationBuilder.add_input, NodeDeclarationBuilder.add_output, SocketDeclaration.new,
      SocketDeclaration.set_default_value, SocketDeclaration.set_min, SocketDeclaration.set_max]
      at hs
    rcases hs with rfl | rfl <;> simp at hlo hhi <;> subst hlo hhi <;>
      exact ⟨by norm_num, float_0_8, rfl, by norm_num [float_0_8], by norm_num [float_0_8]⟩
  · simp [bNodeType.declaration, node_type_storage, node_type_init, cmp_node_type_base,
      cmp_node_glare_declare, NodeDeclarationBuilder.add_input, NodeDeclarationBuilder.add_output,
      SocketDeclaration.new, SocketDeclaration.set_default_value] at hs
    subst hs
    simp at hlo
  · simp [bNodeType.declaration, node_type_storage, node_type_init, cmp_node_type_base,
      cmp_node_keyingscreen_declare, NodeDeclarationBuilder.add_output] at hs
  · simp [bNodeType.declaration, cmp_node_type_base, cmp_node_map_range_declare,
      NodeDeclarationBuilder.add_input, NodeDeclarationBuilder.add_output, SocketDeclaration.new,
      SocketDeclaration.set_default_value, SocketDeclaration.set_min, SocketDeclaration.set_max]
      at hs
    rcases hs with rfl | rfl | rfl | rfl | rfl <;> simp at hlo hhi <;> subst hlo hhi
    · exact ⟨by norm_num, 1, rfl, by norm_num, by norm_num⟩
    all_goals exact ⟨by norm_num, 0, rfl, by norm_num, by norm_num⟩
  · simp [bNodeType.declaration, node_type_storage, node_type_init, cmp_node_type_base,
      cmp_node_planetrackdeform_declare, NodeDeclarationBuilder.add_input,
      NodeDeclarationBuilder.add_output, SocketDeclaration.new] at hs
    subst hs
    simp at hlo

/-- Instance of C9: the Inner Mask input of Double Edge Mask, clamped to `[0, 1]`, has its
default `0.8f` between the bounds. -/
theorem clamped_float_inputs_hold_default_witness :
    double_edge_mask_ntype ∈ registered_node_types ∧
    (0 : ℚ) ≤ 1 ∧
    ∃ d, (some (SocketValue.float float_0_8) : Option SocketValue) = some (SocketValue.float d) ∧
      0 ≤ d ∧ d ≤ 1 :=
  have hmem : double_edge_mask_ntype ∈ registered_node_types := by
    simp [registered_node_types, register_node_type_cmp_crop,
      register_node_type_cmp_doubleedgemask, register_node_type_cmp_glare,
      register_node_type_cmp_keyingscreen, register_node_type_cmp_map_range,
      register_node_type_cmp_planetrackdeform, nodeRegisterType, double_edge_mask_ntype]
  ⟨hmem, clamped_float_inputs_hold_default.2 double_edge_mask_ntype hmem
    { name := "Inner Mask", type := SocketType.Float,
      default_value := some (SocketValue.float float_0_8), min := some 0, max := some 1 }
    (by simp [double_edge_mask_ntype, bNodeType.declaration, cmp_node_type_base,
      cmp_node_double_edge_mask_declare, NodeDeclarationBuilder.add_input,
      NodeDeclarationBuilder.add_output, SocketDeclaration.new,
      SocketDeclaration.set_default_value, SocketDeclaration.set_min, SocketDeclaration.set_max])
    rfl 0 1 rfl rfl⟩

theorem init_crop_fresh (ntree : bNodeTree) (heap : Heap) (node : bNode) :
    (node_composit_init_crop ntree heap node).1.blocks = heap.blocks ++
        [{ struct_name := "NodeTwoXYs", alloc_name := "node xy data",
           stored := [("y2", 0), ("y1", 0), ("x2", 0), ("x1", 0)] }] ∧
    (node_composit_init_crop ntree heap node).2.storage = some heap.blocks.length := by
  simp [node_composit_init_crop, MEM_callocN, store_fresh]

theorem init_glare_fresh (ntree : bNodeTree) (heap : Heap) (node : bNode) :
    (node_composit_init_glare ntree heap node).1.blocks = heap.blocks ++
        [{ struct_name := "NodeGlare", alloc_name := "node glare data",
           stored := [("size", 8), ("fade", float_0_9), ("angle_ofs", 0), ("streaks", 4),
             ("star_45", 1), ("threshold", 1), ("mix", 0), ("colmod", 1 / 4), ("iter", 3),
             ("type", 2), ("quality", 1)] }] ∧
    (node_composit_init_glare ntree heap node).2.storage = some heap.blocks.length := by
  simp [node_composit_init_glare, MEM_callocN, store_fresh]

theorem init_keyingscreen_fresh (ntree : bNodeTree) (heap : Heap) (node : bNode) :
    (node_composit_init_keyingscreen ntree heap node).1.blocks = heap.blocks ++
        [{ struct_name := "NodeKeyingScreenData", alloc_name := "node keyingscreen data",
           stored := [] }] ∧
    (node_composit_init_keyingscreen ntree heap node).2.storage = some heap.blocks.length := by
  simp [node_composit_init_keyingscreen, MEM_callocN]

theorem init_planetrackdeform_fresh (ntree : bNodeTree) (heap : Heap) (node : bNode) :
    (planetrackdeform_init ntree heap node).1.blocks = heap.blocks ++
        [{ struct_name := "NodePlaneTrackDeformData",
           alloc_name := "node plane track deform data",
           stored := [("motion_blur_shutter", 1 / 2), ("motion_blur_samples", 16)] }] ∧
    (planetrackdeform_init ntree heap node).2.storage = some heap.blocks.length := by
  simp [planetrackdeform_init, MEM_callocN, store_fresh]

/-- C10: of the node types registered here, Crop, Glare, Keying Screen and Plane Track Deform
register a storage struct (`NodeTwoXYs`, `NodeGlare`, `NodeKeyingScreenData`,
`NodePlaneTrackDeformData`) and an init callback, Double Edge Mask and Map Range register
neither; so a storage struct name is registered exactly when an init callback is. Every
registered init callback, on any heap and node, allocates one new block and leaves the old ones
as they were, leaves the storage of the node pointing at the new block, the block is of the
registered struct, and every field of it that the callback does not assign reads zero. -/
theorem storage_registration_agrees_with_init :
    (registered_node_types.map fun ntype =>
        (ntype.ui_name, ntype.storagename, ntype.initfunc.isSome))
      = [("Crop", "NodeTwoXYs", true), ("Double Edge Mask", "", false),
         ("Glare", "NodeGlare", true), ("Keying Screen", "NodeKeyingScreenData", true),
         ("Map Range", "", false), ("Plane Track Deform", "NodePlaneTrackDeformData", true)] ∧
    ∀ ntype ∈ registered_node_types,
      (ntype.storagename ≠ "" ↔ ntype.initfunc.isSome = true) ∧
      ∀ init, ntype.initfunc = some init → ∀ (ntree : bNodeTree) (heap : Heap) (node : bNode),
        ∃ block, (init ntree heap node).1.blocks = heap.blocks ++ [block] ∧
          (init ntree heap node).2.storage = some heap.blocks.length ∧
          block.struct_name = ntype.storagename ∧
          ∀ field, field ∉ block.assigned → block.read field = 0 := by
  refine ⟨by decide, ?_⟩
  intro ntype hnt
  rcases mem_registered_node_types ntype hnt with rfl | rfl | rfl | rfl | rfl | rfl
  · refine ⟨by simp [node_type_storage, node_type_init], ?_⟩
    intro init hinit ntree heap node
    simp only [node_type_storage, node_type_init, Option.some.injEq] at hinit
    subst hinit
    exact ⟨_, (init_crop_fresh ntree heap node).1, (init_crop_fresh ntree heap node).2, rfl,
      fun field h => read_of_not_assigned _ field h⟩
  · refine ⟨by simp [cmp_node_type_base, bNodeType.zeroed], ?_⟩
    intro init hinit
    simp [cmp_node_type_base, bNodeType.zeroed] at hinit
  · refine ⟨by simp [node_type_storage, node_type_init], ?_⟩
    intro init hinit ntree heap node
    simp only [node_type_storage, node_type_init, Option.some.injEq] at hinit
    subst hinit
    exact ⟨_, (init_glare_fresh ntree heap node).1, (init_glare_fresh ntree heap node).2, rfl,
      fun field h => read_of_not_assigned _ field h⟩
  · refine ⟨by simp [node_type_storage, node_type_init], ?_⟩
    intro init hinit ntree heap node
    simp only [node_type_storage, node_type_init, Option.some.injEq] at hinit
    subst hinit
    exact ⟨_, (init_keyingscreen_fresh ntree heap node).1,
      (init_keyingscreen_fresh ntree heap node).2, rfl,
      fun field h => read_of_not_assigned _ field h⟩
  · refine ⟨by simp [cmp_node_type_base, bNodeType.zeroed], ?_⟩
    intro init hinit
    simp [cmp_node_type_base, bNodeType.zeroed] at hinit
  · refine ⟨by simp [node_type_storage, node_type_init], ?_⟩
    intro init hinit ntree heap node
    simp only [node_type_storage, node_type_init, Option.some.injEq] at hinit
    subst hinit
    exact ⟨_, (init_planetrackdeform_fresh ntree heap node).1,
      (init_planetrackdeform_fresh ntree heap node).2, rfl,
      fun field h => read_of_not_assigned _ field h⟩

/-- Instance of C10: Glare is registered with storage `NodeGlare` and
`node_composit_init_glare`; run on the sample heap, which holds one block, and the sample node,
the callback adds one block of struct `NodeGlare` at index `1`, points the node to it, and
every field it does not assign reads zero. -/
theorem storage_registration_agrees_with_init_witness :
    glare_ntype ∈ registered_node_types ∧
    (glare_ntype.storagename ≠ "" ↔ glare_ntype.initfunc.isSome = true) ∧
    ∃ block, (node_composit_init_glare sample_ntree sample_heap sample_node).1.blocks
        = sample_heap.blocks ++ [block] ∧
      (node_composit_init_glare sample_ntree sample_heap sample_node).2.storage
        = some sample_heap.blocks.length ∧
      block.struct_name = glare_ntype.storagename ∧
      ∀ field, field ∉ block.assigned → block.read field = 0 :=
  have hmem : glare_ntype ∈ registered_node_types := by
    simp [registered_node_types, register_node_type_cmp_crop,
      register_node_type_cmp_doubleedgemask, register_node_type_cmp_glare,
      register_node_type_cmp_keyingscreen, register_node_type_cmp_map_range,
      register_node_type_cmp_planetrackdeform, nodeRegisterType, glare_ntype]
  ⟨hmem, (storage_registration_agrees_with_init.2 glare_ntype hmem).1,
    (storage_registration_agrees_with_init.2 glare_ntype hmem).2 node_composit_init_glare rfl
      sample_ntree sample_heap sample_node⟩

end Blender
